import Mathlib

/-!
Shallow embedding of the datostim module (src/datostim.c) from the
cortex-lab/datostim repository, together with theorems checking the
natural-language specification against the code.

Modelling conventions:
- C `float`/`double` values are modelled as rationals (the code only copies
  values and divides 8-bit integers by 255, all exact in the reals);
- pointers that may be NULL are modelled as `Option`; a byte buffer is a
  `List Nat` holding exactly the bytes of the pointed-to region;
- the external GPU batch/request collaborator (Datoviz) is modelled by a
  trace of `DEvent` values: every call the module makes into the
  collaborator appends one event;
- fatal `ASSERT` failures are modelled by functions returning `Option`
  (`none` means the assertion fired and the process aborted);
- `log_error` followed by an early return is modelled by a returned `Bool`
  flag (`true` means an error was reported);
- the opaque resource ids (`DvzId`) returned by the collaborator are part of
  the external Resource Registry and carry no domain state; the creation
  and binding requests that concern them appear in the event trace instead.
-/

/-- DSTIM_MAX_SCREENS (datostim.c:37). -/
def DSTIM_MAX_SCREENS : Nat := 8

/-- DSTIM_MAX_LAYERS (datostim.c:38). -/
def DSTIM_MAX_LAYERS : Nat := 16

/-- SQUARE_VERTEX_COUNT (datostim.c:43). -/
def SQUARE_VERTEX_COUNT : Nat := 6

/-- DSTIM_DEFAULT_SQUARE_WIDTH (datostim.c:34). -/
def DSTIM_DEFAULT_SQUARE_WIDTH : Nat := 100

/-- DSTIM_DEFAULT_SQUARE_HEIGHT (datostim.c:35). -/
def DSTIM_DEFAULT_SQUARE_HEIGHT : Nat := 100

/-- A cglm `mat4`: an opaque 16-entry value type with copy semantics
(the module never computes with matrices, it only copies them). -/
structure Mat4 where
  entries : List ℚ
deriving DecidableEq, Repr

/-- The zero matrix produced by `calloc` / `= {0}` initialization. -/
def zeroMat4 : Mat4 := ⟨List.replicate 16 0⟩

/-- A cglm `cvec4` of four `uint8_t` color channels (values in 0..255). -/
structure Cvec4 where
  r : Nat
  g : Nat
  b : Nat
  a : Nat
deriving DecidableEq, Repr

/-- A cglm `vec4` of floats. -/
structure Vec4f where
  x : ℚ
  y : ℚ
  z : ℚ
  w : ℚ
deriving DecidableEq, Repr

/-- A cglm `vec2` of floats. -/
structure Vec2f where
  x : ℚ
  y : ℚ
deriving DecidableEq, Repr

/-- A cglm `uvec2` of two `uint32_t`. -/
structure Uvec2 where
  x : Nat
  y : Nat
deriving DecidableEq, Repr

/-- DStimInterpolation (datostim.h:71). -/
inductive DStimInterpolation where
  | nearest
  | linear
deriving DecidableEq, Repr

/-- DStimBlend as used by datostim.c (constants DSTIM_BLEND_NONE and
DSTIM_BLEND_DST; the header also declares SRC and ONE_MINUS_SRC variants). -/
inductive DStimBlend where
  | blendNone
  | dst
  | src
  | oneMinusSrc
deriving DecidableEq, Repr

/-- DvzFilter values used by create_sampler (datostim.c:754). -/
inductive DvzFilter where
  | nearest
  | linear
deriving DecidableEq, Repr

/-- DvzSamplerAddressMode values used by create_sampler (datostim.c:757). -/
inductive DvzSamplerAddressMode where
  | repeatMode
  | clampToBorder
deriving DecidableEq, Repr

/-- DvzBlendType values used by set_blend (datostim.c:705). -/
inductive DvzBlendType where
  | disable
  | destination
deriving DecidableEq, Repr

/-- DVZ_MASK_COLOR_R bit of the color-write mask. -/
def DVZ_MASK_COLOR_R : Nat := 1

/-- DVZ_MASK_COLOR_G bit of the color-write mask. -/
def DVZ_MASK_COLOR_G : Nat := 2

/-- DVZ_MASK_COLOR_B bit of the color-write mask. -/
def DVZ_MASK_COLOR_B : Nat := 4

/-- DVZ_MASK_COLOR_A bit of the color-write mask. -/
def DVZ_MASK_COLOR_A : Nat := 8

/-- struct DScreen (datostim.c:143): one viewport+projection pair. -/
structure DScreen where
  offset : Uvec2
  size : Uvec2
  projection : Mat4
deriving DecidableEq, Repr

/-- The zero screen produced by `calloc`. -/
def zeroScreen : DScreen :=
  { offset := ⟨0, 0⟩, size := ⟨0, 0⟩, projection := zeroMat4 }

/-- struct DLayer (datostim.c:152): one textured dome-projection layer.
`format` is the opaque DvzFormat code, kept as a Nat. `rgba` is the
exclusively-owned pixel buffer (`none` models a NULL pointer). -/
structure DLayer where
  view : Mat4
  tex_offset : Vec2f
  tex_size : Vec2f
  mask : Nat
  min_color : Cvec4
  max_color : Cvec4
  tex_angle : ℚ
  tex_width : Nat
  tex_height : Nat
  tex_nbytes : Nat
  rgba : Option (List Nat)
  format : Nat
  interpolation : DStimInterpolation
  blend : DStimBlend
  is_periodic : Bool
  is_visible : Bool
  is_blank : Bool
  is_dirty : Bool
  is_texture_dirty : Bool
deriving DecidableEq, Repr

/-- The all-zero layer produced by `calloc` in dstim_init (before the
is_blank initialization loop). -/
def zeroLayer : DLayer :=
  { view := zeroMat4
    tex_offset := ⟨0, 0⟩
    tex_size := ⟨0, 0⟩
    mask := 0
    min_color := ⟨0, 0, 0, 0⟩
    max_color := ⟨0, 0, 0, 0⟩
    tex_angle := 0
    tex_width := 0
    tex_height := 0
    tex_nbytes := 0
    rgba := Option.none
    format := 0
    interpolation := DStimInterpolation.nearest
    blend := DStimBlend.blendNone
    is_periodic := false
    is_visible := false
    is_blank := false
    is_dirty := false
    is_texture_dirty := false }

instance : Inhabited DLayer := ⟨zeroLayer⟩

/-- struct DStim (datostim.c:186): the top-level scene aggregate.
The `app`, `batch`, `canvas_id` and the resource-id fields are opaque
handles into the external collaborator (see the module header comment);
the domain state is the part modelled here. `screens` and `layers` model
the fixed C arrays `screens[DSTIM_MAX_SCREENS]` and
`layers[DSTIM_MAX_LAYERS]` (their lengths are 8 and 16 in every state
reachable through the API). -/
structure DStim where
  width : Nat
  height : Nat
  model : Mat4
  sphere_index_count : Nat
  screen_count : Nat
  screens : List DScreen
  layer_count : Nat
  layers : List DLayer
deriving DecidableEq, Repr

/-- struct DStimPush (datostim.c:249): the packed push-constant block. -/
structure DStimPush where
  model : Mat4
  view : Mat4
  projection : Mat4
  min_color : Vec4f
  max_color : Vec4f
  tex_offset : Vec2f
  tex_size : Vec2f
  tex_angle : ℚ
deriving DecidableEq, Repr

/-- The zero push block produced by `DStimPush push = {0}` (datostim.c:1290). -/
def zeroPush : DStimPush :=
  { model := zeroMat4
    view := zeroMat4
    projection := zeroMat4
    min_color := ⟨0, 0, 0, 0⟩
    max_color := ⟨0, 0, 0, 0⟩
    tex_offset := ⟨0, 0⟩
    tex_size := ⟨0, 0⟩
    tex_angle := 0 }

/-- The two static primitives, each owning its own pipeline. -/
inductive DPipe where
  | background
  | square
deriving DecidableEq, Repr

/-- One call from the module into the external GPU batch/request
collaborator. Record-type events (`record...` and `submit`) are the
per-frame command stream; the others are resource creation, binding and
upload requests. -/
inductive DEvent where
  | recordBegin
  | recordViewport (ox oy w h : Nat)
  | recordDraw (pipe : DPipe) (first_vertex vertex_count : Nat)
  | recordPush (layer_idx : Nat) (push : DStimPush)
  | recordDrawIndexed (layer_idx first_index index_count : Nat)
  | recordEnd
  | submit
  | createPipeline (layer_idx : Nat)
  | bindVertex (layer_idx : Nat)
  | bindIndex (layer_idx : Nat)
  | createTex (layer_idx format width height : Nat)
  | createSampler (layer_idx : Nat) (filter : DvzFilter) (address : DvzSamplerAddressMode)
  | bindTex (layer_idx : Nat)
  | setBlend (layer_idx : Nat) (blend : DvzBlendType)
  | setMask (layer_idx mask : Nat)
  | uploadTex (layer_idx : Nat) (bytes : List Nat)
  | uploadRect (pipe : DPipe) (offset shape : Vec2f)
  | uploadColor (pipe : DPipe) (color : Vec4f)
  | createCanvas (width height : Nat)
  | createStaticResources (pipe : DPipe)
  | createSphereBuffers
deriving DecidableEq, Repr

/-- Is the event a recorded per-frame command (viewport, draw,
push-constant, draw-indexed, begin, end, submit)? -/
def DEvent.isRecordCmd : DEvent → Bool
  | DEvent.recordBegin => true
  | DEvent.recordViewport _ _ _ _ => true
  | DEvent.recordDraw _ _ _ => true
  | DEvent.recordPush _ _ => true
  | DEvent.recordDrawIndexed _ _ _ => true
  | DEvent.recordEnd => true
  | DEvent.submit => true
  | _ => false

/-- Is the event the pipeline-creation request for layer `i` (the first
request of the one-time preparation of that layer)? -/
def DEvent.isPrepareOf (i : Nat) : DEvent → Bool
  | DEvent.createPipeline j => j == i
  | _ => false

/-- Is the event a texture upload for layer `i`? -/
def DEvent.isUploadOf (i : Nat) : DEvent → Bool
  | DEvent.uploadTex j _ => j == i
  | _ => false

/-- Function _cpy (datostim.c:270): NULL input gives NULL; otherwise a fresh
byte-identical copy of the `size`-byte input region (the list models
exactly that region, so the copy is the same list). -/
def _cpy (size : Nat) (data : Option (List Nat)) : Option (List Nat) :=
  match size, data with
  | _, Option.none => Option.none
  | _, some d => some d

/-!
Layer setters (datostim.c:1099-1260). Each setter expands the GET_LAYER
macro (datostim.c:60): if `layer_idx >= DSTIM_MAX_LAYERS` it logs an error
and returns with no mutation (modelled by the returned flag `true`);
otherwise it sets `layer_count = MAX(layer_count, layer_idx + 1)` and
operates on `layers[layer_idx]`. TOUCH_LAYER sets `is_dirty`;
TOUCH_LAYER_TEXTURE sets `is_texture_dirty` (datostim.c:69-70).
-/

/-- dstim_layer_texture (datostim.c:1099). The leading ASSERTs on
`tex_nbytes`, `width`, `height` and `rgba` are modelled by the `Option`
result (`none` = fatal abort); they run before GET_LAYER. -/
def dstim_layer_texture (stim : DStim) (layer_idx format width height tex_nbytes : Nat)
    (rgba : Option (List Nat)) : Option (DStim × Bool) :=
  if tex_nbytes = 0 ∨ width = 0 ∨ height = 0 ∨ rgba = Option.none then Option.none
  else if DSTIM_MAX_LAYERS ≤ layer_idx then some (stim, true)
  else
    let stim := { stim with layer_count := max stim.layer_count (layer_idx + 1) }
    let layer := stim.layers.getD layer_idx zeroLayer
    let layer :=
      { layer with
          is_texture_dirty := true
          format := format
          tex_width := width
          tex_height := height
          tex_nbytes := tex_nbytes
          rgba := _cpy tex_nbytes rgba }
    some ({ stim with layers := stim.layers.set layer_idx layer }, false)

/-- dstim_layer_interpolation (datostim.c:1129). -/
def dstim_layer_interpolation (stim : DStim) (layer_idx : Nat)
    (interpolation : DStimInterpolation) : DStim × Bool :=
  if DSTIM_MAX_LAYERS ≤ layer_idx then (stim, true)
  else
    let stim := { stim with layer_count := max stim.layer_count (layer_idx + 1) }
    let layer := stim.layers.getD layer_idx zeroLayer
    let layer := { layer with is_dirty := true, interpolation := interpolation }
    ({ stim with layers := stim.layers.set layer_idx layer }, false)

/-- dstim_layer_periodic (datostim.c:1140). -/
def dstim_layer_periodic (stim : DStim) (layer_idx : Nat) (is_periodic : Bool) :
    DStim × Bool :=
  if DSTIM_MAX_LAYERS ≤ layer_idx then (stim, true)
  else
    let stim := { stim with layer_count := max stim.layer_count (layer_idx + 1) }
    let layer := stim.layers.getD layer_idx zeroLayer
    let layer := { layer with is_dirty := true, is_periodic := is_periodic }
    ({ stim with layers := stim.layers.set layer_idx layer }, false)

/-- dstim_layer_blend (datostim.c:1151). -/
def dstim_layer_blend (stim : DStim) (layer_idx : Nat) (blend : DStimBlend) :
    DStim × Bool :=
  if DSTIM_MAX_LAYERS ≤ layer_idx then (stim, true)
  else
    let stim := { stim with layer_count := max stim.layer_count (layer_idx + 1) }
    let layer := stim.layers.getD layer_idx zeroLayer
    let layer := { layer with is_dirty := true, blend := blend }
    ({ stim with layers := stim.layers.set layer_idx layer }, false)

/-- dstim_layer_mask (datostim.c:1162). -/
def dstim_layer_mask (stim : DStim) (layer_idx : Nat) (red green blue alpha : Bool) :
    DStim × Bool :=
  if DSTIM_MAX_LAYERS ≤ layer_idx then (stim, true)
  else
    let stim := { stim with layer_count := max stim.layer_count (layer_idx + 1) }
    let layer := stim.layers.getD layer_idx zeroLayer
    let layer :=
      { layer with
          is_dirty := true
          mask := (if red then DVZ_MASK_COLOR_R else 0) |||
                  (if green then DVZ_MASK_COLOR_G else 0) |||
                  (if blue then DVZ_MASK_COLOR_B else 0) |||
                  (if alpha then DVZ_MASK_COLOR_A else 0) }
    ({ stim with layers := stim.layers.set layer_idx layer }, false)

/-- dstim_layer_view (datostim.c:1177). -/
def dstim_layer_view (stim : DStim) (layer_idx : Nat) (view : Mat4) : DStim × Bool :=
  if DSTIM_MAX_LAYERS ≤ layer_idx then (stim, true)
  else
    let stim := { stim with layer_count := max stim.layer_count (layer_idx + 1) }
    let layer := stim.layers.getD layer_idx zeroLayer
    let layer := { layer with is_dirty := true, view := view }
    ({ stim with layers := stim.layers.set layer_idx layer }, false)

/-- dstim_layer_angle (datostim.c:1189). -/
def dstim_layer_angle (stim : DStim) (layer_idx : Nat) (tex_angle : ℚ) : DStim × Bool :=
  if DSTIM_MAX_LAYERS ≤ layer_idx then (stim, true)
  else
    let stim := { stim with layer_count := max stim.layer_count (layer_idx + 1) }
    let layer := stim.layers.getD layer_idx zeroLayer
    let layer := { layer with is_dirty := true, tex_angle := tex_angle }
    ({ stim with layers := stim.layers.set layer_idx layer }, false)

/-- dstim_layer_offset (datostim.c:1200). -/
def dstim_layer_offset (stim : DStim) (layer_idx : Nat) (tex_x tex_y : ℚ) :
    DStim × Bool :=
  if DSTIM_MAX_LAYERS ≤ layer_idx then (stim, true)
  else
    let stim := { stim with layer_count := max stim.layer_count (layer_idx + 1) }
    let layer := stim.layers.getD layer_idx zeroLayer
    let layer := { layer with is_dirty := true, tex_offset := ⟨tex_x, tex_y⟩ }
    ({ stim with layers := stim.layers.set layer_idx layer }, false)

/-- dstim_layer_size (datostim.c:1212). -/
def dstim_layer_size (stim : DStim) (layer_idx : Nat) (tex_size_x tex_size_y : ℚ) :
    DStim × Bool :=
  if DSTIM_MAX_LAYERS ≤ layer_idx then (stim, true)
  else
    let stim := { stim with layer_count := max stim.layer_count (layer_idx + 1) }
    let layer := stim.layers.getD layer_idx zeroLayer
    let layer := { layer with is_dirty := true, tex_size := ⟨tex_size_x, tex_size_y⟩ }
    ({ stim with layers := stim.layers.set layer_idx layer }, false)

/-- dstim_layer_min_color (datostim.c:1224). -/
def dstim_layer_min_color (stim : DStim) (layer_idx red green blue alpha : Nat) :
    DStim × Bool :=
  if DSTIM_MAX_LAYERS ≤ layer_idx then (stim, true)
  else
    let stim := { stim with layer_count := max stim.layer_count (layer_idx + 1) }
    let layer := stim.layers.getD layer_idx zeroLayer
    let layer := { layer with is_dirty := true, min_color := ⟨red, green, blue, alpha⟩ }
    ({ stim with layers := stim.layers.set layer_idx layer }, false)

/-- dstim_layer_max_color (datostim.c:1239). -/
def dstim_layer_max_color (stim : DStim) (layer_idx red green blue alpha : Nat) :
    DStim × Bool :=
  if DSTIM_MAX_LAYERS ≤ layer_idx then (stim, true)
  else
    let stim := { stim with layer_count := max stim.layer_count (layer_idx + 1) }
    let layer := stim.layers.getD layer_idx zeroLayer
    let layer := { layer with is_dirty := true, max_color := ⟨red, green, blue, alpha⟩ }
    ({ stim with layers := stim.layers.set layer_idx layer }, false)

/-- dstim_layer_show (datostim.c:1254): GET_LAYER, then set `is_visible`
only (no TOUCH macro, so no dirty flag changes). -/
def dstim_layer_show (stim : DStim) (layer_idx : Nat) (is_visible : Bool) :
    DStim × Bool :=
  if DSTIM_MAX_LAYERS ≤ layer_idx then (stim, true)
  else
    let stim := { stim with layer_count := max stim.layer_count (layer_idx + 1) }
    let layer := stim.layers.getD layer_idx zeroLayer
    let layer := { layer with is_visible := is_visible }
    ({ stim with layers := stim.layers.set layer_idx layer }, false)

/-- dstim_screen (datostim.c:1072): GET_SCREEN macro (datostim.c:51) then
set the viewport offset and size of that screen. -/
def dstim_screen (stim : DStim) (screen_idx x y w h : Nat) : DStim × Bool :=
  if DSTIM_MAX_SCREENS ≤ screen_idx then (stim, true)
  else
    let stim := { stim with screen_count := max stim.screen_count (screen_idx + 1) }
    let screen := stim.screens.getD screen_idx zeroScreen
    let screen := { screen with offset := ⟨x, y⟩, size := ⟨w, h⟩ }
    ({ stim with screens := stim.screens.set screen_idx screen }, false)

/-- dstim_projection (datostim.c:1085). -/
def dstim_projection (stim : DStim) (screen_idx : Nat) (projection : Mat4) :
    DStim × Bool :=
  if DSTIM_MAX_SCREENS ≤ screen_idx then (stim, true)
  else
    let stim := { stim with screen_count := max stim.screen_count (screen_idx + 1) }
    let screen := stim.screens.getD screen_idx zeroScreen
    let screen := { screen with projection := projection }
    ({ stim with screens := stim.screens.set screen_idx screen }, false)

/-- dstim_model (datostim.c:986): copy the global model matrix. -/
def dstim_model (stim : DStim) (model : Mat4) : DStim :=
  { stim with model := model }

/-- fill_push (datostim.c:805): fill every field of the push-constant block
except `model` from the per-screen projection and the per-layer
parameters. The 0..255 color channels are divided by 255.0. The GET_LAYER
guard at the top returns with `push` untouched when
`layer_idx >= DSTIM_MAX_LAYERS`; its `layer_count` bump is the identity at
every call site (dstim_update calls it with `layer_idx < layer_count`). -/
def fill_push (stim : DStim) (layer_idx : Nat) (projection : Mat4)
    (push : DStimPush) : DStimPush :=
  if DSTIM_MAX_LAYERS ≤ layer_idx then push
  else
    let layer := stim.layers.getD layer_idx zeroLayer
    { push with
        projection := projection
        view := layer.view
        min_color := ⟨(layer.min_color.r : ℚ) / 255, (layer.min_color.g : ℚ) / 255,
                      (layer.min_color.b : ℚ) / 255, (layer.min_color.a : ℚ) / 255⟩
        max_color := ⟨(layer.max_color.r : ℚ) / 255, (layer.max_color.g : ℚ) / 255,
                      (layer.max_color.b : ℚ) / 255, (layer.max_color.a : ℚ) / 255⟩
        tex_offset := layer.tex_offset
        tex_size := layer.tex_size
        tex_angle := layer.tex_angle }

/-- create_texture (datostim.c:618): GET_LAYER guard, then
`ASSERT(width > 0)` and `ASSERT(height > 0)` (fatal when the layer has no
configured texture), then the dvz_create_tex request. Returns the updated
state (the GET_LAYER `layer_count` bump) and the emitted request. -/
def create_texture (stim : DStim) (layer_idx format width height : Nat) :
    Option (DStim × List DEvent) :=
  if DSTIM_MAX_LAYERS ≤ layer_idx then some (stim, [])
  else
    let stim := { stim with layer_count := max stim.layer_count (layer_idx + 1) }
    if width = 0 ∨ height = 0 then Option.none
    else some (stim, [DEvent.createTex layer_idx format width height])

/-- upload_texture (datostim.c:670): GET_LAYER guard, then fatal ASSERTs on
the texture dimensions, byte length and pixel pointer, then the
dvz_upload_tex request carrying the owned pixel buffer. -/
def upload_texture (stim : DStim) (layer_idx : Nat) : Option (DStim × List DEvent) :=
  if DSTIM_MAX_LAYERS ≤ layer_idx then some (stim, [])
  else
    let stim := { stim with layer_count := max stim.layer_count (layer_idx + 1) }
    let layer := stim.layers.getD layer_idx zeroLayer
    if layer.tex_width = 0 ∨ layer.tex_height = 0 ∨ layer.tex_nbytes = 0 ∨
        layer.rgba = Option.none then Option.none
    else some (stim, [DEvent.uploadTex layer_idx (layer.rgba.getD [])])

/-- prepare_sphere_pipeline (datostim.c:730): create the per-layer graphics
pipeline, bind the shared sphere vertex and index buffers, create the
texture (fatal if the layer has no configured dimensions), create the
sampler from `interpolation` and `is_periodic`, bind texture+sampler, and
apply blend mode and color mask (set_blend datostim.c:697, set_mask
datostim.c:717). -/
def prepare_sphere_pipeline (stim : DStim) (layer_idx : Nat) :
    Option (DStim × List DEvent) :=
  if DSTIM_MAX_LAYERS ≤ layer_idx then some (stim, [])
  else
    let stim := { stim with layer_count := max stim.layer_count (layer_idx + 1) }
    let layer := stim.layers.getD layer_idx zeroLayer
    let evs0 := [DEvent.createPipeline layer_idx, DEvent.bindVertex layer_idx,
                 DEvent.bindIndex layer_idx]
    match create_texture stim layer_idx layer.format layer.tex_width layer.tex_height with
    | Option.none => Option.none
    | some (stim, evs1) =>
      let filter := if layer.interpolation = DStimInterpolation.nearest
                    then DvzFilter.nearest else DvzFilter.linear
      let address_mode := if layer.is_periodic then DvzSamplerAddressMode.repeatMode
                          else DvzSamplerAddressMode.clampToBorder
      let blend := if layer.blend = DStimBlend.dst then DvzBlendType.destination
                   else DvzBlendType.disable
      some (stim,
        evs0 ++ evs1 ++
          [DEvent.createSampler layer_idx filter address_mode,
           DEvent.bindTex layer_idx,
           DEvent.setBlend layer_idx blend,
           DEvent.setMask layer_idx layer.mask])

/-- One iteration of the first (preparation) pass of dstim_update
(datostim.c:1297-1317): if the layer is blank, prepare its pipeline and
clear `is_blank`; if its texture is dirty, upload the pixel buffer and
clear `is_texture_dirty`. -/
def prepLayerStep (stim : DStim) (layer_idx : Nat) : Option (DStim × List DEvent) :=
  let layer := stim.layers.getD layer_idx zeroLayer
  let step1 : Option (DStim × List DEvent) :=
    if layer.is_blank then
      match prepare_sphere_pipeline stim layer_idx with
      | Option.none => Option.none
      | some (stim1, evs) =>
        let layer1 := stim1.layers.getD layer_idx zeroLayer
        some ({ stim1 with
                  layers := stim1.layers.set layer_idx
                    { layer1 with is_blank := false } }, evs)
    else some (stim, [])
  match step1 with
  | Option.none => Option.none
  | some (stim1, evs1) =>
    let layer1 := stim1.layers.getD layer_idx zeroLayer
    if layer1.is_texture_dirty then
      match upload_texture stim1 layer_idx with
      | Option.none => Option.none
      | some (stim2, evs2) =>
        let layer2 := stim2.layers.getD layer_idx zeroLayer
        some ({ stim2 with
                  layers := stim2.layers.set layer_idx
                    { layer2 with is_texture_dirty := false } }, evs1 ++ evs2)
    else some (stim1, evs1)

/-- The preparation pass of dstim_update over a list of layer indices
(the C loop visits `0, 1, ..., layer_count - 1` in order). -/
def prepLoop (stim : DStim) : List Nat → Option (DStim × List DEvent)
  | [] => some (stim, [])
  | i :: rest =>
    match prepLayerStep stim i with
    | Option.none => Option.none
    | some (stim1, evs1) =>
      match prepLoop stim1 rest with
      | Option.none => Option.none
      | some (stim2, evs2) => some (stim2, evs1 ++ evs2)

/-- The inner (layer) loop of the draw pass of dstim_update
(datostim.c:1333-1352): skip invisible layers; for each visible layer fill
the push-constant block (push_sphere_pipeline datostim.c:773) and record
an indexed draw of the full shared index count (draw_sphere_pipeline
datostim.c:789). `push0` is the reused push block whose `model` field was
filled once per frame; fill_push overwrites every other field. -/
def drawLayerEvents (stim : DStim) (push0 : DStimPush) (projection : Mat4) :
    List Nat → List DEvent
  | [] => []
  | i :: rest =>
    let layer := stim.layers.getD i zeroLayer
    (if layer.is_visible then
       [DEvent.recordPush i (fill_push stim i projection push0),
        DEvent.recordDrawIndexed i 0 stim.sphere_index_count]
     else []) ++ drawLayerEvents stim push0 projection rest

/-- The outer (screen) loop of the draw pass of dstim_update
(datostim.c:1321-1353): for each screen set the viewport to its
offset/size, then run the layer loop with its projection. -/
def drawScreenEvents (stim : DStim) (push0 : DStimPush) : List Nat → List DEvent
  | [] => []
  | s :: rest =>
    let screen := stim.screens.getD s zeroScreen
    DEvent.recordViewport screen.offset.x screen.offset.y screen.size.x screen.size.y
      :: (drawLayerEvents stim push0 screen.projection (List.range stim.layer_count)
          ++ drawScreenEvents stim push0 rest)

/-- dstim_update (datostim.c:1268): begin recording, full-window viewport,
background draw, preparation pass, per-screen draw pass, full-window
viewport, square draw, end recording, submit. `none` models a fatal
assertion failure inside the preparation pass. -/
def dstim_update (stim : DStim) : Option (DStim × List DEvent) :=
  match prepLoop stim (List.range stim.layer_count) with
  | Option.none => Option.none
  | some (stimP, evsPrep) =>
    some (stimP,
      DEvent.recordBegin
        :: DEvent.recordViewport 0 0 stim.width stim.height
        :: DEvent.recordDraw DPipe.background 0 SQUARE_VERTEX_COUNT
        :: (evsPrep
            ++ drawScreenEvents stimP { zeroPush with model := stim.model }
                 (List.range stimP.screen_count)
            ++ [DEvent.recordViewport 0 0 stim.width stim.height,
                DEvent.recordDraw DPipe.square 0 SQUARE_VERTEX_COUNT,
                DEvent.recordEnd, DEvent.submit]))

/-- upload_rectangle (datostim.c:438): six vertices (two triangles) of the
rectangle with the given normalized-device-coordinate offset and shape. -/
def upload_rectangle (offset shape : Vec2f) : List (ℚ × ℚ × ℚ) :=
  let x := offset.x
  let y := offset.y
  let w := shape.x
  let h := shape.y
  [(x, y, 0), (x + w, y, 0), (x, y + h, 0),
   (x + w, y + h, 0), (x, y + h, 0), (x + w, y, 0)]

/-- dstim_square_pos (datostim.c:962): convert the pixel position and size
of the indicator square to normalized device coordinates and upload the
rectangle vertices. Returns the NDC offset and shape passed to
upload_rectangle. -/
def dstim_square_pos (stim : DStim) (x y w h : Nat) : Vec2f × Vec2f :=
  let xf : ℚ := -1 + 2 * (x : ℚ) / (stim.width : ℚ)
  let yf : ℚ := -1 + 2 * (y : ℚ) / (stim.height : ℚ)
  let wf : ℚ := 2 * (w : ℚ) / (stim.width : ℚ)
  let hf : ℚ := 2 * (h : ℚ) / (stim.height : ℚ)
  (⟨xf, yf⟩, ⟨wf, hf⟩)

/-- rectangle_color (datostim.c:467): convert the four `uint8_t` channels to
floats in [0, 1] for the GPU uniform. -/
def rectangle_color (red green blue alpha : Nat) : Vec4f :=
  ⟨(red : ℚ) / 255, (green : ℚ) / 255, (blue : ℚ) / 255, (alpha : ℚ) / 255⟩

/-- Subtraction of two `uint32_t` with wraparound, used by dstim_init for
`width - sw` and `height - sh`. -/
def sub32 (a b : Nat) : Nat := (a + 2 ^ 32 - b % 2 ^ 32) % 2 ^ 32

/-- Result of dstim_init: the scene pointer (`none` = NULL), whether an
error was logged, and the requests issued to the collaborator. -/
structure InitResult where
  stim : Option DStim
  errored : Bool
  reqs : List DEvent
deriving DecidableEq, Repr

/-- The scene state built by a successful dstim_init (datostim.c:859-919):
`calloc` zeroes every field, then width/height are stored and every one of
the DSTIM_MAX_LAYERS layers gets `is_blank = true`; the sphere index count
is the constant 124236 (datostim.c:907). -/
def initState (width height : Nat) : DStim :=
  { width := width
    height := height
    model := zeroMat4
    sphere_index_count := 124236
    screen_count := 0
    screens := List.replicate DSTIM_MAX_SCREENS zeroScreen
    layer_count := 0
    layers := List.replicate DSTIM_MAX_LAYERS { zeroLayer with is_blank := true } }

/-- dstim_init (datostim.c:846): reject a zero width or height with a
logged error and a NULL result before any state is allocated or any
request is issued; otherwise build the zeroed scene, create the
background and square resources (with the default rectangle geometry and
colors), the shared sphere buffers, and the canvas. -/
def dstim_init (width height : Nat) : InitResult :=
  if width = 0 then { stim := Option.none, errored := true, reqs := [] }
  else if height = 0 then { stim := Option.none, errored := true, reqs := [] }
  else
    let stim := initState width height
    let sw := DSTIM_DEFAULT_SQUARE_WIDTH
    let sh := DSTIM_DEFAULT_SQUARE_HEIGHT
    let sq := dstim_square_pos stim (sub32 width sw) (sub32 height sh) sw sh
    { stim := some stim
      errored := false
      reqs := [DEvent.createStaticResources DPipe.background,
               DEvent.uploadRect DPipe.background ⟨-1, -1⟩ ⟨2, 2⟩,
               DEvent.uploadColor DPipe.background (rectangle_color 127 127 127 255),
               DEvent.createStaticResources DPipe.square,
               DEvent.uploadRect DPipe.square sq.1 sq.2,
               DEvent.uploadColor DPipe.square (rectangle_color 0 255 255 255),
               DEvent.createSphereBuffers,
               DEvent.createCanvas width height] }

/-- The requests emitted by prepare_sphere_pipeline for layer `i` in state
`layer` (spec-side description used to characterize the preparation pass). -/


def prepEvents (i : Nat) (layer : DLayer) : List DEvent :=
  [DEvent.createPipeline i, DEvent.bindVertex i, DEvent.bindIndex i,
   DEvent.createTex i layer.format layer.tex_width layer.tex_height,
   DEvent.createSampler i
     (if layer.interpolation = DStimInterpolation.nearest then DvzFilter.nearest
      else DvzFilter.linear)
     (if layer.is_periodic then DvzSamplerAddressMode.repeatMode
      else DvzSamplerAddressMode.clampToBorder),
   DEvent.bindTex i,
   DEvent.setBlend i
     (if layer.blend = DStimBlend.dst then DvzBlendType.destination
      else DvzBlendType.disable),
   DEvent.setMask i layer.mask]

def stepEvents (i : Nat) (layer : DLayer) : List DEvent :=
  (if layer.is_blank then prepEvents i layer else []) ++
  (if layer.is_texture_dirty then [DEvent.uploadTex i (layer.rgba.getD [])] else [])

def clearLayerFlags (stim : DStim) (i : Nat) : DStim :=
  let layer := stim.layers.getD i zeroLayer
  let layer := { layer with is_blank := false, is_texture_dirty := false }
  { stim with layers := stim.layers.set i layer }


/-- The full recorded command sequence of dstim_update for a state with two
configured screens and two visible, already-prepared layers: begin
recording, then full-window viewport, background draw, screen 0 viewport
followed by the push+indexed-draw of layers 0 and 1, the same for
screen 1, full-window viewport, square draw, end, submit. -/
def c1_trace (stim : DStim) : List DEvent :=
  let push0 := { zeroPush with model := stim.model }
  let s0 := stim.screens.getD 0 zeroScreen
  let s1 := stim.screens.getD 1 zeroScreen
  [DEvent.recordBegin,
   DEvent.recordViewport 0 0 stim.width stim.height,
   DEvent.recordDraw DPipe.background 0 SQUARE_VERTEX_COUNT,
   DEvent.recordViewport s0.offset.x s0.offset.y s0.size.x s0.size.y,
   DEvent.recordPush 0 (fill_push stim 0 s0.projection push0),
   DEvent.recordDrawIndexed 0 0 stim.sphere_index_count,
   DEvent.recordPush 1 (fill_push stim 1 s0.projection push0),
   DEvent.recordDrawIndexed 1 0 stim.sphere_index_count,
   DEvent.recordViewport s1.offset.x s1.offset.y s1.size.x s1.size.y,
   DEvent.recordPush 0 (fill_push stim 0 s1.projection push0),
   DEvent.recordDrawIndexed 0 0 stim.sphere_index_count,
   DEvent.recordPush 1 (fill_push stim 1 s1.projection push0),
   DEvent.recordDrawIndexed 1 0 stim.sphere_index_count,
   DEvent.recordViewport 0 0 stim.width stim.height,
   DEvent.recordDraw DPipe.square 0 SQUARE_VERTEX_COUNT,
   DEvent.recordEnd, DEvent.submit]

/-- The trace of a dstim_update whose preparation pass does nothing (all
layers already prepared and no texture dirty). -/
def updateCleanTrace (s : DStim) : List DEvent :=
  DEvent.recordBegin
    :: DEvent.recordViewport 0 0 s.width s.height
    :: DEvent.recordDraw DPipe.background 0 SQUARE_VERTEX_COUNT
    :: (drawScreenEvents s { zeroPush with model := s.model } (List.range s.screen_count)
        ++ [DEvent.recordViewport 0 0 s.width s.height,
            DEvent.recordDraw DPipe.square 0 SQUARE_VERTEX_COUNT,
            DEvent.recordEnd, DEvent.submit])


/-- Concrete witness state: the fresh 960 by 400 scene with two screens
configured, small textures set on layers 0 and 1, and both layers shown;
then the state and trace of its first dstim_update. -/
def witnessBase : DStim :=
  let s := initState 960 400
  let s := (dstim_screen s 0 0 0 480 400).1
  let s := (dstim_screen s 1 480 0 480 400).1
  let s := ((dstim_layer_texture s 0 0 2 1 8
    (some [1, 2, 3, 4, 5, 6, 7, 8])).getD (s, true)).1
  let s := ((dstim_layer_texture s 1 0 2 1 8
    (some [9, 10, 11, 12, 13, 14, 15, 16])).getD (s, true)).1
  let s := (dstim_layer_show s 0 true).1
  (dstim_layer_show s 1 true).1

def witnessPrepared : DStim := ((dstim_update witnessBase).getD (witnessBase, [])).1

def witnessTrace : List DEvent := ((dstim_update witnessBase).getD (witnessBase, [])).2


/-- Concrete witness state for the texture-replacement claim: the fresh
scene after one valid texture call on layer 0. -/
def c5stim1 : DStim :=
  ((dstim_layer_texture (initState 960 400) 0 0 2 1 8
    (some [1, 2, 3, 4, 5, 6, 7, 8])).getD (initState 960 400, true)).1


/-!
Helper lemmas about lists, layer records and the preparation pass.
-/

theorem list_set_getD_self {α : Type _} :
    ∀ (l : List α) (i : Nat) (d : α), i < l.length → l.set i (l.getD i d) = l
  | a :: l, 0, d, _ => by simp
  | a :: l, i+1, d, h => by
    simp only [List.set, List.getD, List.getElem?_cons_succ]
    exact congrArg _ (list_set_getD_self l i d (by simpa using h))

theorem list_getD_set_self {α : Type _} (l : List α) (i : Nat) (a d : α)
    (h : i < l.length) : (l.set i a).getD i d = a := by
  simp [List.getD_eq_getElem?_getD, List.getElem?_set_self, h]

theorem list_getD_set_ne {α : Type _} (l : List α) {i j : Nat} (a d : α)
    (h : i ≠ j) : (l.set i a).getD j d = l.getD j d := by
  simp [List.getD_eq_getElem?_getD, List.getElem?_set_ne h]

theorem dlayer_clear_both (l : DLayer) (hb : l.is_blank = false)
    (ht : l.is_texture_dirty = false) :
    ({ l with is_blank := false, is_texture_dirty := false } : DLayer) = l := by
  cases l; simp_all

theorem dlayer_clear_blank (l : DLayer) (ht : l.is_texture_dirty = false) :
    ({ l with is_blank := false, is_texture_dirty := false } : DLayer) =
      { l with is_blank := false } := by
  cases l; simp_all

theorem dlayer_clear_dirty (l : DLayer) (hb : l.is_blank = false) :
    ({ l with is_blank := false, is_texture_dirty := false } : DLayer) =
      { l with is_texture_dirty := false } := by
  cases l; simp_all

/-- The per-step characterization of the preparation pass. -/
theorem prepLayerStep_eq (stim : DStim) (i : Nat) (hi : i < stim.layer_count)
    (hc : stim.layer_count <= DSTIM_MAX_LAYERS)
    (hlen : stim.layers.length = DSTIM_MAX_LAYERS) :
    prepLayerStep stim i =
      (let layer := stim.layers.getD i zeroLayer
       if layer.is_blank = true /\ (layer.tex_width = 0 \/ layer.tex_height = 0)
       then Option.none
       else if layer.is_texture_dirty = true /\ (layer.tex_width = 0 \/
           layer.tex_height = 0 \/ layer.tex_nbytes = 0 \/ layer.rgba = Option.none)
       then Option.none
       else some (clearLayerFlags stim i, stepEvents i layer)) := by
  have h16 : i < DSTIM_MAX_LAYERS := lt_of_lt_of_le hi hc
  have h16' : ¬ DSTIM_MAX_LAYERS <= i := by omega
  have hmax : max stim.layer_count (i + 1) = stim.layer_count := max_eq_left hi
  have hilen : i < stim.layers.length := by omega
  have hgetset : ∀ (a : DLayer), (stim.layers.set i a).getD i zeroLayer = a :=
    fun a => list_getD_set_self _ _ _ _ hilen
  have hfe : (false = true) = False := by simp
  have hte : (true = true) = True := by simp
  have hsetget : stim.layers.set i (stim.layers.getD i zeroLayer) = stim.layers :=
    list_set_getD_self _ _ _ hilen
  set l := stim.layers.getD i zeroLayer with hl
  by_cases hb : l.is_blank
  · by_cases hw : l.tex_width = 0 \/ l.tex_height = 0
    · simp only [prepLayerStep, prepare_sphere_pipeline, create_texture, ← hl, hb, hw,
        h16', if_false, if_true, hmax, true_and, ite_true, ite_false]
    · push_neg at hw
      have hw1 := hw.1
      have hw2 := hw.2
      by_cases ht : l.is_texture_dirty
      · by_cases hv : l.tex_nbytes = 0 \/ l.rgba = Option.none
        · simp only [prepLayerStep, prepare_sphere_pipeline, create_texture, upload_texture,
            clearLayerFlags, stepEvents, prepEvents, ← hl, hb, ht, h16', hmax, hw1, hw2,
            hgetset, hv, List.set_set, if_false, if_true, true_and, false_and,
            ite_true, ite_false, or_false, false_or, not_false_iff, hfe, hte]
        · push_neg at hv
          simp only [prepLayerStep, prepare_sphere_pipeline, create_texture, upload_texture,
            clearLayerFlags, stepEvents, prepEvents, ← hl, hb, ht, h16', hmax, hw1, hw2,
            hgetset, hv.1, hv.2, List.set_set, if_false, if_true, true_and, false_and,
            ite_true, ite_false, or_false, false_or, not_false_iff, hfe, hte]
          simp [List.append_assoc]
      · simp only [prepLayerStep, prepare_sphere_pipeline, create_texture, upload_texture,
          clearLayerFlags, stepEvents, prepEvents, ← hl, hb,
          eq_false_of_ne_true ht, h16', hmax, hw1, hw2,
          hgetset, List.set_set, if_false, if_true, true_and, false_and,
          ite_true, ite_false, or_false, false_or, not_false_iff, hfe, hte]
        simp [List.append_assoc]
  · by_cases ht : l.is_texture_dirty
    · by_cases hv : l.tex_width = 0 \/ l.tex_height = 0 \/ l.tex_nbytes = 0 \/
          l.rgba = Option.none
      · simp only [prepLayerStep, upload_texture, ← hl, eq_false_of_ne_true hb, ht, hv,
          h16', hmax, hgetset, if_false, if_true, true_and, false_and,
          ite_true, ite_false, not_false_iff, hfe, hte]
      · push_neg at hv
        simp only [prepLayerStep, upload_texture, clearLayerFlags, stepEvents,
          ← hl, eq_false_of_ne_true hb, ht, h16', hmax, hv.1, hv.2.1, hv.2.2.1, hv.2.2.2,
          hgetset, if_false, if_true, true_and, false_and,
          ite_true, ite_false, or_false, false_or, not_false_iff, hfe, hte]
    · simp only [prepLayerStep, clearLayerFlags, stepEvents,
        ← hl, eq_false_of_ne_true hb, eq_false_of_ne_true ht,
        hgetset, if_false, if_true, true_and, false_and,
        ite_true, ite_false, or_false, false_or, not_false_iff, hfe, hte]
      rw [dlayer_clear_both _ (eq_false_of_ne_true hb) (eq_false_of_ne_true ht), hsetget]
      rfl

theorem stepEvents_no_record (k : Nat) (l : DLayer) :
    (stepEvents k l).filter (fun e => e.isRecordCmd) = [] := by
  by_cases hb : l.is_blank <;> by_cases ht : l.is_texture_dirty <;>
    simp [stepEvents, prepEvents, DEvent.isRecordCmd, hb, ht]

theorem stepEvents_count_prepare (k i : Nat) (l : DLayer) :
    (stepEvents k l).countP (DEvent.isPrepareOf i) =
      if k = i ∧ l.is_blank = true then 1 else 0 := by
  by_cases hk : k = i <;> by_cases hb : l.is_blank <;> by_cases ht : l.is_texture_dirty <;>
    simp [stepEvents, prepEvents, DEvent.isPrepareOf, hk, hb, ht]

theorem stepEvents_count_upload (k i : Nat) (l : DLayer) :
    (stepEvents k l).countP (DEvent.isUploadOf i) =
      if k = i ∧ l.is_texture_dirty = true then 1 else 0 := by
  by_cases hk : k = i <;> by_cases hb : l.is_blank <;> by_cases ht : l.is_texture_dirty <;>
    simp [stepEvents, prepEvents, DEvent.isUploadOf, hk, hb, ht]

theorem stepEvents_upload_mem (i : Nat) (l : DLayer) (ht : l.is_texture_dirty = true) :
    DEvent.uploadTex i (l.rgba.getD []) ∈ stepEvents i l := by
  by_cases hb : l.is_blank <;> simp [stepEvents, prepEvents, hb, ht]

theorem clearLayerFlags_layer_count (stim : DStim) (i : Nat) :
    (clearLayerFlags stim i).layer_count = stim.layer_count := rfl

theorem clearLayerFlags_layers_length (stim : DStim) (i : Nat) :
    (clearLayerFlags stim i).layers.length = stim.layers.length := by
  simp [clearLayerFlags]

theorem clearLayerFlags_getD_ne (stim : DStim) {i j : Nat} (h : i ≠ j) :
    (clearLayerFlags stim i).layers.getD j zeroLayer =
      stim.layers.getD j zeroLayer :=
  list_getD_set_ne _ _ _ h

theorem clearLayerFlags_getD_self (stim : DStim) {i : Nat} (h : i < stim.layers.length) :
    (clearLayerFlags stim i).layers.getD i zeroLayer =
      { stim.layers.getD i zeroLayer with is_blank := false, is_texture_dirty := false } :=
  list_getD_set_self _ _ _ _ h

theorem prepLoop_spec : ∀ (L : List Nat) (stim s2 : DStim) (evs : List DEvent),
    prepLoop stim L = some (s2, evs) →
    (∀ j ∈ L, j < stim.layer_count) →
    stim.layer_count ≤ DSTIM_MAX_LAYERS →
    stim.layers.length = DSTIM_MAX_LAYERS →
    (s2.width = stim.width ∧ s2.height = stim.height ∧ s2.model = stim.model ∧
     s2.sphere_index_count = stim.sphere_index_count ∧
     s2.screen_count = stim.screen_count ∧ s2.screens = stim.screens ∧
     s2.layer_count = stim.layer_count ∧ s2.layers.length = stim.layers.length) ∧
    (∀ j, j ∉ L → s2.layers.getD j zeroLayer = stim.layers.getD j zeroLayer) ∧
    (∀ j, j ∈ L → s2.layers.getD j zeroLayer =
       { stim.layers.getD j zeroLayer with is_blank := false, is_texture_dirty := false }) ∧
    evs.filter (fun e => e.isRecordCmd) = []
  | [], stim, s2, evs, h, _, _, _ => by
    simp only [prepLoop, Option.some.injEq, Prod.mk.injEq] at h
    obtain ⟨h1, h2⟩ := h
    subst h1; subst h2
    simp
  | i :: L, stim, s2, evs, h, hall, hc, hlen => by
    have hi : i < stim.layer_count := hall i (List.mem_cons_self i L)
    have hilen : i < stim.layers.length := by omega
    rw [prepLoop, prepLayerStep_eq stim i hi hc hlen] at h
    set l := stim.layers.getD i zeroLayer with hl
    by_cases hc1 : l.is_blank = true ∧ (l.tex_width = 0 ∨ l.tex_height = 0)
    · simp [hc1] at h
    · by_cases hc2 : l.is_texture_dirty = true ∧ (l.tex_width = 0 ∨ l.tex_height = 0 ∨
          l.tex_nbytes = 0 ∨ l.rgba = Option.none)
      · simp [hc1, hc2] at h
      · simp only [hc1, hc2, if_false, ite_false] at h
        cases hloop : prepLoop (clearLayerFlags stim i) L with
        | none => rw [hloop] at h; simp at h
        | some pr =>
          obtain ⟨s3, evs2⟩ := pr
          rw [hloop] at h
          simp only [Option.some.injEq, Prod.mk.injEq] at h
          obtain ⟨hs3, hevs⟩ := h
          subst hs3
          have hall2 : ∀ j ∈ L, j < (clearLayerFlags stim i).layer_count := by
            intro j hj
            rw [clearLayerFlags_layer_count]
            exact hall j (List.mem_cons_of_mem i hj)
          have hc2' : (clearLayerFlags stim i).layer_count ≤ DSTIM_MAX_LAYERS := by
            rw [clearLayerFlags_layer_count]; exact hc
          have hlen2 : (clearLayerFlags stim i).layers.length = DSTIM_MAX_LAYERS := by
            rw [clearLayerFlags_layers_length]; exact hlen
          obtain ⟨ih1, ih2, ih3, ih4⟩ := prepLoop_spec L (clearLayerFlags stim i) s3 evs2
            hloop hall2 hc2' hlen2
          refine ⟨?_, ?_, ?_, ?_⟩
          · obtain ⟨e1, e2, e3, e4, e5, e6, e7, e8⟩ := ih1
            exact ⟨e1, e2, e3, e4, e5, e6, e7,
              by rw [e8, clearLayerFlags_layers_length]⟩
          · intro j hj
            have hji : i ≠ j := fun hij => hj (hij ▸ List.mem_cons_self i L)
            have hjL : j ∉ L := fun hjl => hj (List.mem_cons_of_mem i hjl)
            rw [ih2 j hjL, clearLayerFlags_getD_ne stim hji]
          · intro j hj
            by_cases hjL : j ∈ L
            · rw [ih3 j hjL]
              by_cases hji : i = j
              · subst hji
                rw [clearLayerFlags_getD_self stim hilen]
              · rw [clearLayerFlags_getD_ne stim hji]
            · have hji : j = i := by
                rcases List.mem_cons.mp hj with h1 | h1
                · exact h1
                · exact absurd h1 hjL
              subst hji
              rw [ih2 j hjL, clearLayerFlags_getD_self stim hilen]
          · subst hevs
            rw [List.filter_append, ih4, stepEvents_no_record, List.nil_append]

theorem prepLoop_count : ∀ (L : List Nat) (stim s2 : DStim) (evs : List DEvent),
    prepLoop stim L = some (s2, evs) →
    (∀ j ∈ L, j < stim.layer_count) →
    stim.layer_count ≤ DSTIM_MAX_LAYERS →
    stim.layers.length = DSTIM_MAX_LAYERS →
    ∀ i,
      (evs.countP (DEvent.isPrepareOf i) =
        if i ∈ L ∧ (stim.layers.getD i zeroLayer).is_blank = true then 1 else 0) ∧
      (evs.countP (DEvent.isUploadOf i) =
        if i ∈ L ∧ (stim.layers.getD i zeroLayer).is_texture_dirty = true then 1 else 0) ∧
      (i ∈ L → (stim.layers.getD i zeroLayer).is_texture_dirty = true →
        DEvent.uploadTex i ((stim.layers.getD i zeroLayer).rgba.getD []) ∈ evs)
  | [], stim, s2, evs, h, _, _, _ => by
    simp only [prepLoop, Option.some.injEq, Prod.mk.injEq] at h
    obtain ⟨h1, h2⟩ := h
    subst h1; subst h2
    simp
  | k :: L, stim, s2, evs, h, hall, hc, hlen => by
    have hk : k < stim.layer_count := hall k (List.mem_cons_self k L)
    have hklen : k < stim.layers.length := by omega
    rw [prepLoop, prepLayerStep_eq stim k hk hc hlen] at h
    set l := stim.layers.getD k zeroLayer with hl
    by_cases hc1 : l.is_blank = true ∧ (l.tex_width = 0 ∨ l.tex_height = 0)
    · simp [hc1] at h
    · by_cases hc2 : l.is_texture_dirty = true ∧ (l.tex_width = 0 ∨ l.tex_height = 0 ∨
          l.tex_nbytes = 0 ∨ l.rgba = Option.none)
      · simp [hc1, hc2] at h
      · simp only [hc1, hc2, if_false, ite_false] at h
        cases hloop : prepLoop (clearLayerFlags stim k) L with
        | none => rw [hloop] at h; simp at h
        | some pr =>
          obtain ⟨s3, evs2⟩ := pr
          rw [hloop] at h
          simp only [Option.some.injEq, Prod.mk.injEq] at h
          obtain ⟨hs3, hevs⟩ := h
          subst hevs
          have hall2 : ∀ j ∈ L, j < (clearLayerFlags stim k).layer_count := by
            intro j hj
            rw [clearLayerFlags_layer_count]
            exact hall j (List.mem_cons_of_mem k hj)
          have hc2' : (clearLayerFlags stim k).layer_count ≤ DSTIM_MAX_LAYERS := by
            rw [clearLayerFlags_layer_count]; exact hc
          have hlen2 : (clearLayerFlags stim k).layers.length = DSTIM_MAX_LAYERS := by
            rw [clearLayerFlags_layers_length]; exact hlen
          intro i
          obtain ⟨ih1, ih2, ih3⟩ := prepLoop_count L (clearLayerFlags stim k) s3 evs2
            hloop hall2 hc2' hlen2 i
          by_cases hki : k = i
          · subst hki
            have hclear : (clearLayerFlags stim k).layers.getD k zeroLayer =
                { l with is_blank := false, is_texture_dirty := false } :=
              clearLayerFlags_getD_self stim hklen
            have hfe : (false = true) = False := by simp
            refine ⟨?_, ?_, ?_⟩
            · rw [List.countP_append, stepEvents_count_prepare, ih1, hclear]
              simp only [← hl, hfe, and_false, if_false, Nat.add_zero, List.mem_cons,
                eq_self_iff_true, true_or, true_and, and_true, ite_false]
            · rw [List.countP_append, stepEvents_count_upload, ih2, hclear]
              simp only [← hl, hfe, and_false, if_false, Nat.add_zero, List.mem_cons,
                eq_self_iff_true, true_or, true_and, and_true, ite_false]
            · intro _ ht
              exact List.mem_append_left _ (stepEvents_upload_mem k l ht)
          · have hclear : (clearLayerFlags stim k).layers.getD i zeroLayer =
                stim.layers.getD i zeroLayer :=
              clearLayerFlags_getD_ne stim hki
            have hki1 : (k = i) = False := by simp [hki]
            have hki2 : (i = k) = False := eq_false (fun h => hki h.symm)
            refine ⟨?_, ?_, ?_⟩
            · rw [List.countP_append, stepEvents_count_prepare, ih1, hclear]
              simp only [hki1, hki2, false_and, if_false, Nat.zero_add, List.mem_cons,
                false_or, ite_false]
            · rw [List.countP_append, stepEvents_count_upload, ih2, hclear]
              simp only [hki1, hki2, false_and, if_false, Nat.zero_add, List.mem_cons,
                false_or, ite_false]
            · intro hmem ht
              have hiL : i ∈ L := by
                rcases List.mem_cons.mp hmem with h1 | h1
                · exact absurd h1.symm hki
                · exact h1
              have := ih3 hiL (by rw [hclear]; exact ht)
              rw [hclear] at this
              exact List.mem_append_right _ this

theorem prepLayerStep_clean (stim : DStim) (i : Nat)
    (hb : (stim.layers.getD i zeroLayer).is_blank = false)
    (ht : (stim.layers.getD i zeroLayer).is_texture_dirty = false) :
    prepLayerStep stim i = some (stim, []) := by
  have hfe : (false = true) = False := by simp
  simp only [prepLayerStep, hb, ht, hfe, if_false, ite_false]

theorem prepLoop_clean : ∀ (L : List Nat) (stim : DStim),
    (∀ j ∈ L, (stim.layers.getD j zeroLayer).is_blank = false ∧
      (stim.layers.getD j zeroLayer).is_texture_dirty = false) →
    prepLoop stim L = some (stim, [])
  | [], stim, _ => rfl
  | i :: L, stim, hall => by
    have h := hall i (List.mem_cons_self i L)
    rw [prepLoop, prepLayerStep_clean stim i h.1 h.2]
    show (match prepLoop stim L with
      | Option.none => Option.none
      | some (stim2, evs2) => some (stim2, [] ++ evs2)) = some (stim, [])
    rw [prepLoop_clean L stim (fun j hj => hall j (List.mem_cons_of_mem i hj))]
    rfl

theorem prepLayerStep_fail (stim : DStim) (i : Nat) (h16 : i < DSTIM_MAX_LAYERS)
    (hb : (stim.layers.getD i zeroLayer).is_blank = true)
    (hw : (stim.layers.getD i zeroLayer).tex_width = 0) :
    prepLayerStep stim i = Option.none := by
  have h16' : ¬ DSTIM_MAX_LAYERS ≤ i := by omega
  have hte : (true = true) = True := by simp
  simp only [prepLayerStep, prepare_sphere_pipeline, create_texture, hb, hw, h16', hte,
    if_false, if_true, ite_true, ite_false, true_or, eq_self_iff_true, not_false_iff]

theorem prepLoop_fail : ∀ (L : List Nat) (stim : DStim) (i : Nat),
    i ∈ L →
    (∀ j ∈ L, j < stim.layer_count) →
    stim.layer_count ≤ DSTIM_MAX_LAYERS →
    stim.layers.length = DSTIM_MAX_LAYERS →
    (stim.layers.getD i zeroLayer).is_blank = true →
    (stim.layers.getD i zeroLayer).tex_width = 0 →
    prepLoop stim L = Option.none
  | [], _, _, hmem, _, _, _, _, _ => absurd hmem (List.not_mem_nil _)
  | k :: L, stim, i, hmem, hall, hc, hlen, hb, hw => by
    have hk : k < stim.layer_count := hall k (List.mem_cons_self k L)
    by_cases hki : k = i
    · subst hki
      rw [prepLoop, prepLayerStep_fail stim k (lt_of_lt_of_le hk hc) hb hw]
    · rw [prepLoop, prepLayerStep_eq stim k hk hc hlen]
      set l := stim.layers.getD k zeroLayer with hl
      by_cases hc1 : l.is_blank = true ∧ (l.tex_width = 0 ∨ l.tex_height = 0)
      · simp [hc1]
      · by_cases hc2 : l.is_texture_dirty = true ∧ (l.tex_width = 0 ∨ l.tex_height = 0 ∨
            l.tex_nbytes = 0 ∨ l.rgba = Option.none)
        · simp [hc1, hc2]
        · simp only [hc1, hc2, if_false, ite_false]
          have hiL : i ∈ L := by
            rcases List.mem_cons.mp hmem with h1 | h1
            · exact absurd h1.symm hki
            · exact h1
          have hall2 : ∀ j ∈ L, j < (clearLayerFlags stim k).layer_count := by
            intro j hj
            rw [clearLayerFlags_layer_count]
            exact hall j (List.mem_cons_of_mem k hj)
          have hgetD : (clearLayerFlags stim k).layers.getD i zeroLayer =
              stim.layers.getD i zeroLayer := clearLayerFlags_getD_ne stim hki
          rw [prepLoop_fail L (clearLayerFlags stim k) i hiL hall2
            (by rw [clearLayerFlags_layer_count]; exact hc)
            (by rw [clearLayerFlags_layers_length]; exact hlen)
            (by rw [hgetD]; exact hb) (by rw [hgetD]; exact hw)]

theorem drawLayerEvents_all_record (stim : DStim) (push0 : DStimPush) (proj : Mat4) :
    ∀ (L : List Nat), ∀ e ∈ drawLayerEvents stim push0 proj L, e.isRecordCmd = true
  | [], e, he => absurd he (List.not_mem_nil _)
  | i :: L, e, he => by
    rw [drawLayerEvents] at he
    rcases List.mem_append.mp he with h1 | h1
    · by_cases hv : (stim.layers.getD i zeroLayer).is_visible = true
      · rw [if_pos hv] at h1
        rcases List.mem_cons.mp h1 with h2 | h2
        · rw [h2]; rfl
        · rcases List.mem_cons.mp h2 with h3 | h3
          · rw [h3]; rfl
          · exact absurd h3 (List.not_mem_nil _)
      · rw [if_neg hv] at h1
        exact absurd h1 (List.not_mem_nil _)
    · exact drawLayerEvents_all_record stim push0 proj L e h1

theorem drawScreenEvents_all_record (stim : DStim) (push0 : DStimPush) :
    ∀ (L : List Nat), ∀ e ∈ drawScreenEvents stim push0 L, e.isRecordCmd = true
  | [], e, he => absurd he (List.not_mem_nil _)
  | s :: L, e, he => by
    rw [drawScreenEvents] at he
    rcases List.mem_cons.mp he with h1 | h1
    · rw [h1]; rfl
    · rcases List.mem_append.mp h1 with h2 | h2
      · exact drawLayerEvents_all_record stim push0 _ _ e h2
      · exact drawScreenEvents_all_record stim push0 L e h2

theorem record_not_prepare (i : Nat) (e : DEvent) (h : e.isRecordCmd = true) :
    DEvent.isPrepareOf i e = false := by
  cases e <;> first | rfl | exact absurd h (by simp [DEvent.isRecordCmd])

theorem record_not_upload (i : Nat) (e : DEvent) (h : e.isRecordCmd = true) :
    DEvent.isUploadOf i e = false := by
  cases e <;> first | rfl | exact absurd h (by simp [DEvent.isRecordCmd])

theorem drawScreenEvents_filter_record (stim : DStim) (push0 : DStimPush) (L : List Nat) :
    (drawScreenEvents stim push0 L).filter (fun e => e.isRecordCmd) =
      drawScreenEvents stim push0 L :=
  List.filter_eq_self.mpr (drawScreenEvents_all_record stim push0 L)

theorem drawScreenEvents_filter_nonrecord (stim : DStim) (push0 : DStimPush) (L : List Nat) :
    (drawScreenEvents stim push0 L).filter (fun e => !e.isRecordCmd) = [] := by
  rw [List.filter_eq_nil_iff]
  intro e he
  simp [drawScreenEvents_all_record stim push0 L e he]

theorem drawScreenEvents_count_prepare (stim : DStim) (push0 : DStimPush) (L : List Nat)
    (i : Nat) : (drawScreenEvents stim push0 L).countP (DEvent.isPrepareOf i) = 0 := by
  rw [List.countP_eq_zero]
  intro e he
  simp [record_not_prepare i e (drawScreenEvents_all_record stim push0 L e he)]

theorem drawScreenEvents_count_upload (stim : DStim) (push0 : DStimPush) (L : List Nat)
    (i : Nat) : (drawScreenEvents stim push0 L).countP (DEvent.isUploadOf i) = 0 := by
  rw [List.countP_eq_zero]
  intro e he
  simp [record_not_upload i e (drawScreenEvents_all_record stim push0 L e he)]

/-- Claim C2: for every layer setter (texture, interpolation, periodicity,
blend, mask, view, angle, offset, size, min/max color, visibility) and
every layer_idx ≥ MAX_LAYERS (16), the call reports an error (returned
flag true) and performs no mutation at all: the returned scene state is
exactly the input state, so the Layer Table, layer_count and every other
field are unchanged. The texture setter is taken at arguments that pass
its leading pointer/size assertions, which run before the index check. -/
theorem claim_C2 (stim : DStim) (layer_idx : Nat) (hge : DSTIM_MAX_LAYERS ≤ layer_idx) :
    (∀ format width height tex_nbytes bytes, tex_nbytes ≠ 0 → width ≠ 0 → height ≠ 0 →
      dstim_layer_texture stim layer_idx format width height tex_nbytes (some bytes) =
        some (stim, true)) ∧
    (∀ interpolation,
      dstim_layer_interpolation stim layer_idx interpolation = (stim, true)) ∧
    (∀ is_periodic, dstim_layer_periodic stim layer_idx is_periodic = (stim, true)) ∧
    (∀ blend, dstim_layer_blend stim layer_idx blend = (stim, true)) ∧
    (∀ r g b a, dstim_layer_mask stim layer_idx r g b a = (stim, true)) ∧
    (∀ view, dstim_layer_view stim layer_idx view = (stim, true)) ∧
    (∀ tex_angle, dstim_layer_angle stim layer_idx tex_angle = (stim, true)) ∧
    (∀ tx ty, dstim_layer_offset stim layer_idx tx ty = (stim, true)) ∧
    (∀ sx sy, dstim_layer_size stim layer_idx sx sy = (stim, true)) ∧
    (∀ r g b a, dstim_layer_min_color stim layer_idx r g b a = (stim, true)) ∧
    (∀ r g b a, dstim_layer_max_color stim layer_idx r g b a = (stim, true)) ∧
    (∀ v, dstim_layer_show stim layer_idx v = (stim, true)) := by
  refine ⟨?_, ?_, ?_, ?_, ?_, ?_, ?_, ?_, ?_, ?_, ?_, ?_⟩ <;> intros <;>
    simp_all [dstim_layer_texture, dstim_layer_interpolation, dstim_layer_periodic,
      dstim_layer_blend, dstim_layer_mask, dstim_layer_view, dstim_layer_angle,
      dstim_layer_offset, dstim_layer_size, dstim_layer_min_color, dstim_layer_max_color,
      dstim_layer_show]

/-- Claim C2 witness at layer_idx = 16 on the freshly initialized scene. -/
theorem claim_C2_witness :
    DSTIM_MAX_LAYERS ≤ 16 ∧
    dstim_layer_texture (initState 960 400) 16 0 2 1 8 (some [0, 0, 0, 0, 0, 0, 0, 0]) =
      some (initState 960 400, true) ∧
    dstim_layer_show (initState 960 400) 16 true = (initState 960 400, true) :=
  ⟨by decide,
   (claim_C2 (initState 960 400) 16 (by decide)).1 0 2 1 8 [0, 0, 0, 0, 0, 0, 0, 0]
     (by decide) (by decide) (by decide),
   (claim_C2 (initState 960 400) 16
     (by decide)).2.2.2.2.2.2.2.2.2.2.2 true⟩

/-- Claim C3 counterexample: the texture setter does not set is_dirty. On
the freshly initialized scene, a valid texture call at layer 0 leaves
is_dirty = false (the C function runs TOUCH_LAYER_TEXTURE only, never
TOUCH_LAYER), so the claim that every setter except visibility sets
is_dirty, with the texture setter additionally setting is_texture_dirty,
is false at this input. -/
theorem claim_C3_counterexample :
    (dstim_layer_texture (initState 960 400) 0 0 2 1 8
        (some [0, 0, 0, 0, 0, 0, 0, 0])).map
      (fun r => ((r.1.layers.getD 0 zeroLayer).is_dirty,
                 (r.1.layers.getD 0 zeroLayer).is_texture_dirty)) =
      some (false, true) := by
  rfl

/-- Claim C3 amended: for every valid layer_idx, every layer setter except
the texture and visibility setters sets is_dirty to true; the texture
setter sets is_texture_dirty to true and leaves is_dirty unchanged; and
the visibility setter changes neither is_dirty nor is_texture_dirty. -/
theorem claim_C3_amended (stim : DStim) (layer_idx : Nat)
    (h16 : layer_idx < DSTIM_MAX_LAYERS)
    (hlen : stim.layers.length = DSTIM_MAX_LAYERS) :
    (∀ interpolation,
      ((dstim_layer_interpolation stim layer_idx interpolation).1.layers.getD
        layer_idx zeroLayer).is_dirty = true) ∧
    (∀ p, ((dstim_layer_periodic stim layer_idx p).1.layers.getD
        layer_idx zeroLayer).is_dirty = true) ∧
    (∀ blend, ((dstim_layer_blend stim layer_idx blend).1.layers.getD
        layer_idx zeroLayer).is_dirty = true) ∧
    (∀ r g b a, ((dstim_layer_mask stim layer_idx r g b a).1.layers.getD
        layer_idx zeroLayer).is_dirty = true) ∧
    (∀ view, ((dstim_layer_view stim layer_idx view).1.layers.getD
        layer_idx zeroLayer).is_dirty = true) ∧
    (∀ a, ((dstim_layer_angle stim layer_idx a).1.layers.getD
        layer_idx zeroLayer).is_dirty = true) ∧
    (∀ tx ty, ((dstim_layer_offset stim layer_idx tx ty).1.layers.getD
        layer_idx zeroLayer).is_dirty = true) ∧
    (∀ sx sy, ((dstim_layer_size stim layer_idx sx sy).1.layers.getD
        layer_idx zeroLayer).is_dirty = true) ∧
    (∀ r g b a, ((dstim_layer_min_color stim layer_idx r g b a).1.layers.getD
        layer_idx zeroLayer).is_dirty = true) ∧
    (∀ r g b a, ((dstim_layer_max_color stim layer_idx r g b a).1.layers.getD
        layer_idx zeroLayer).is_dirty = true) ∧
    (∀ format width height n bytes, n ≠ 0 → width ≠ 0 → height ≠ 0 →
      (dstim_layer_texture stim layer_idx format width height n (some bytes)).map
        (fun r => ((r.1.layers.getD layer_idx zeroLayer).is_texture_dirty,
                   (r.1.layers.getD layer_idx zeroLayer).is_dirty)) =
        some (true, (stim.layers.getD layer_idx zeroLayer).is_dirty)) ∧
    (∀ v, ((dstim_layer_show stim layer_idx v).1.layers.getD
          layer_idx zeroLayer).is_dirty =
        (stim.layers.getD layer_idx zeroLayer).is_dirty ∧
      ((dstim_layer_show stim layer_idx v).1.layers.getD
          layer_idx zeroLayer).is_texture_dirty =
        (stim.layers.getD layer_idx zeroLayer).is_texture_dirty) := by
  have h16' : ¬ DSTIM_MAX_LAYERS ≤ layer_idx := by omega
  have hilen : layer_idx < stim.layers.length := by omega
  have hget : ∀ a : DLayer,
      (stim.layers.set layer_idx a).getD layer_idx zeroLayer = a :=
    fun a => list_getD_set_self _ _ _ _ hilen
  refine ⟨?_, ?_, ?_, ?_, ?_, ?_, ?_, ?_, ?_, ?_, ?_, ?_⟩
  · intro interpolation
    simp only [dstim_layer_interpolation, h16', if_false, ite_false, hget]
  · intro p
    simp only [dstim_layer_periodic, h16', if_false, ite_false, hget]
  · intro blend
    simp only [dstim_layer_blend, h16', if_false, ite_false, hget]
  · intro r g b a
    simp only [dstim_layer_mask, h16', if_false, ite_false, hget]
  · intro view
    simp only [dstim_layer_view, h16', if_false, ite_false, hget]
  · intro a
    simp only [dstim_layer_angle, h16', if_false, ite_false, hget]
  · intro tx ty
    simp only [dstim_layer_offset, h16', if_false, ite_false, hget]
  · intro sx sy
    simp only [dstim_layer_size, h16', if_false, ite_false, hget]
  · intro r g b a
    simp only [dstim_layer_min_color, h16', if_false, ite_false, hget]
  · intro r g b a
    simp only [dstim_layer_max_color, h16', if_false, ite_false, hget]
  · intro fmt w h n bytes hn hw hh
    simp only [dstim_layer_texture, h16', hn, hw, hh, Option.some_ne_none,
      false_or, or_false, if_false, ite_false, hget, Option.map_some]
    simp only [Option.map_some', hget]
  · intro v
    exact ⟨by simp only [dstim_layer_show, h16', if_false, ite_false, hget],
           by simp only [dstim_layer_show, h16', if_false, ite_false, hget]⟩

/-- Claim C3 amended witness at layer_idx = 0 on the freshly initialized
scene. -/
theorem claim_C3_amended_witness :
    0 < DSTIM_MAX_LAYERS ∧ (initState 960 400).layers.length = DSTIM_MAX_LAYERS ∧
    (∀ v, (((dstim_layer_show (initState 960 400) 0 v).1.layers.getD 0 zeroLayer).is_dirty =
        ((initState 960 400).layers.getD 0 zeroLayer).is_dirty) ∧
      ((dstim_layer_show (initState 960 400) 0 v).1.layers.getD 0 zeroLayer).is_texture_dirty =
        ((initState 960 400).layers.getD 0 zeroLayer).is_texture_dirty) :=
  ⟨by decide, by decide,
   (claim_C3_amended (initState 960 400) 0 (by decide)
     (by decide)).2.2.2.2.2.2.2.2.2.2.2⟩

/-- Claim C7: fill_push converts each stored 0-255 integer channel of
min_color and max_color to the push-constant float by dividing by 255,
and passes tex_offset, tex_size and tex_angle through unchanged (view and
the per-screen projection are copied); in particular a stored RGBA8 value
of (0,255,255,255) yields the push-constant vec4 (0, 1, 1, 1). -/
theorem claim_C7 (stim : DStim) (layer_idx : Nat) (h16 : layer_idx < DSTIM_MAX_LAYERS)
    (projection : Mat4) (push : DStimPush) :
    (fill_push stim layer_idx projection push =
      { model := push.model
        view := (stim.layers.getD layer_idx zeroLayer).view
        projection := projection
        min_color := ⟨((stim.layers.getD layer_idx zeroLayer).min_color.r : ℚ) / 255,
                      ((stim.layers.getD layer_idx zeroLayer).min_color.g : ℚ) / 255,
                      ((stim.layers.getD layer_idx zeroLayer).min_color.b : ℚ) / 255,
                      ((stim.layers.getD layer_idx zeroLayer).min_color.a : ℚ) / 255⟩
        max_color := ⟨((stim.layers.getD layer_idx zeroLayer).max_color.r : ℚ) / 255,
                      ((stim.layers.getD layer_idx zeroLayer).max_color.g : ℚ) / 255,
                      ((stim.layers.getD layer_idx zeroLayer).max_color.b : ℚ) / 255,
                      ((stim.layers.getD layer_idx zeroLayer).max_color.a : ℚ) / 255⟩
        tex_offset := (stim.layers.getD layer_idx zeroLayer).tex_offset
        tex_size := (stim.layers.getD layer_idx zeroLayer).tex_size
        tex_angle := (stim.layers.getD layer_idx zeroLayer).tex_angle }) ∧
    ((stim.layers.getD layer_idx zeroLayer).min_color = ⟨0, 255, 255, 255⟩ →
      (fill_push stim layer_idx projection push).min_color = ⟨0, 1, 1, 1⟩) := by
  have h16' : ¬ DSTIM_MAX_LAYERS ≤ layer_idx := by omega
  constructor
  · simp only [fill_push, h16', if_false, ite_false]
  · intro hmc
    simp only [fill_push, h16', if_false, ite_false, hmc]
    norm_num

/-- Claim C7 witness on the freshly initialized scene at layer 0, whose
stored min_color is (0, 0, 0, 0). -/
theorem claim_C7_witness :
    0 < DSTIM_MAX_LAYERS ∧
    fill_push (initState 960 400) 0 zeroMat4 zeroPush =
      { model := zeroPush.model
        view := ((initState 960 400).layers.getD 0 zeroLayer).view
        projection := zeroMat4
        min_color := ⟨(((initState 960 400).layers.getD 0 zeroLayer).min_color.r : ℚ) / 255,
                      (((initState 960 400).layers.getD 0 zeroLayer).min_color.g : ℚ) / 255,
                      (((initState 960 400).layers.getD 0 zeroLayer).min_color.b : ℚ) / 255,
                      (((initState 960 400).layers.getD 0 zeroLayer).min_color.a : ℚ) / 255⟩
        max_color := ⟨(((initState 960 400).layers.getD 0 zeroLayer).max_color.r : ℚ) / 255,
                      (((initState 960 400).layers.getD 0 zeroLayer).max_color.g : ℚ) / 255,
                      (((initState 960 400).layers.getD 0 zeroLayer).max_color.b : ℚ) / 255,
                      (((initState 960 400).layers.getD 0 zeroLayer).max_color.a : ℚ) / 255⟩
        tex_offset := ((initState 960 400).layers.getD 0 zeroLayer).tex_offset
        tex_size := ((initState 960 400).layers.getD 0 zeroLayer).tex_size
        tex_angle := ((initState 960 400).layers.getD 0 zeroLayer).tex_angle } :=
  ⟨by decide, (claim_C7 (initState 960 400) 0 (by decide) zeroMat4 zeroPush).1⟩

/-- Claim C8: the square position setter maps pixel coordinates to
normalized device coordinates by x to 2x/width - 1, y to 2y/height - 1,
w to 2w/width, h to 2h/height; at pixel input (860, 300, 100, 100) on a
960 by 400 canvas the NDC rectangle is exactly origin (19/24, 1/2) and
size (5/24, 1/2), which round to the 4-decimal values (0.7917, 0.5) and
(0.2083, 0.5) quoted by the spec (within half of 10^-4). -/
theorem claim_C8 (stim : DStim) (x y w h : Nat) :
    (dstim_square_pos stim x y w h =
      (⟨2 * (x : ℚ) / (stim.width : ℚ) - 1, 2 * (y : ℚ) / (stim.height : ℚ) - 1⟩,
       ⟨2 * (w : ℚ) / (stim.width : ℚ), 2 * (h : ℚ) / (stim.height : ℚ)⟩)) ∧
    (stim.width = 960 → stim.height = 400 → x = 860 → y = 300 → w = 100 → h = 100 →
      dstim_square_pos stim x y w h = (⟨19/24, 1/2⟩, ⟨5/24, 1/2⟩) ∧
      |(19 : ℚ)/24 - 7917/10000| < 1/20000 ∧ |(5 : ℚ)/24 - 2083/10000| < 1/20000) := by
  constructor
  · simp only [dstim_square_pos, neg_add_eq_sub]
  · intro hw hh hx hy hsw hsh
    subst hx; subst hy; subst hsw; subst hsh
    refine ⟨?_, by rw [abs_sub_lt_iff]; constructor <;> norm_num,
      by rw [abs_sub_lt_iff]; constructor <;> norm_num⟩
    simp only [dstim_square_pos, hw, hh]
    norm_num

/-- Claim C8 witness at the quoted spec example. -/
theorem claim_C8_witness :
    (initState 960 400).width = 960 ∧ (initState 960 400).height = 400 ∧
    (dstim_square_pos (initState 960 400) 860 300 100 100 =
      (⟨19/24, 1/2⟩, ⟨5/24, 1/2⟩) ∧
     |(19 : ℚ)/24 - 7917/10000| < 1/20000 ∧ |(5 : ℚ)/24 - 2083/10000| < 1/20000) :=
  ⟨rfl, rfl,
   (claim_C8 (initState 960 400) 860 300 100 100).2 rfl rfl rfl rfl rfl rfl⟩

/-- Claim C9 (implicit): dstim_init with width = 0 or height = 0 logs an
error and returns NULL without creating any scene state or issuing any
collaborator request; for positive width and height it returns a non-NULL
scene whose 16 layers all start blank and invisible, with
layer_count = screen_count = 0. -/
theorem claim_C9 (width height : Nat) :
    ((width = 0 ∨ height = 0) →
      dstim_init width height =
        { stim := Option.none, errored := true, reqs := [] }) ∧
    (width ≠ 0 → height ≠ 0 →
      (dstim_init width height).stim = some (initState width height) ∧
      (dstim_init width height).errored = false ∧
      (initState width height).layer_count = 0 ∧
      (initState width height).screen_count = 0 ∧
      ∀ i, i < DSTIM_MAX_LAYERS →
        ((initState width height).layers.getD i zeroLayer).is_blank = true ∧
        ((initState width height).layers.getD i zeroLayer).is_visible = false) := by
  constructor
  · intro h
    rcases h with h | h <;> simp [dstim_init, h]
  · intro hw hh
    refine ⟨by simp [dstim_init, hw, hh], by simp [dstim_init, hw, hh], rfl, rfl, ?_⟩
    intro i hi
    constructor <;>
      simp [initState, List.getD_eq_getElem?_getD, List.getElem?_replicate, hi, zeroLayer]

/-- Claim C9 witness at width = height = 0 (error case) and at the default
960 by 400 window (success case). -/
theorem claim_C9_witness :
    ((0 = 0 ∨ 400 = 0) →
      dstim_init 0 400 = { stim := Option.none, errored := true, reqs := [] }) ∧
    dstim_init 0 400 = { stim := Option.none, errored := true, reqs := [] } ∧
    ((dstim_init 960 400).stim = some (initState 960 400) ∧
     (dstim_init 960 400).errored = false) :=
  ⟨(claim_C9 0 400).1,
   (claim_C9 0 400).1 (Or.inl rfl),
   ⟨((claim_C9 960 400).2 (by decide) (by decide)).1,
    ((claim_C9 960 400).2 (by decide) (by decide)).2.1⟩⟩

/-- Claim C10 (implicit): a layer that exists (index below layer_count) and
is still blank with tex_width = 0 - which is what any setter other than
the texture setter leaves behind on a fresh index - makes dstim_update
fail the fatal ASSERT(width > 0) inside create_texture during the
preparation pass: the update aborts (returns none in this model) instead
of skipping the layer or reporting a recoverable error. -/
theorem claim_C10 (stim : DStim) (i : Nat)
    (hlen : stim.layers.length = DSTIM_MAX_LAYERS)
    (hc : stim.layer_count ≤ DSTIM_MAX_LAYERS)
    (hi : i < stim.layer_count)
    (hb : (stim.layers.getD i zeroLayer).is_blank = true)
    (hw : (stim.layers.getD i zeroLayer).tex_width = 0) :
    dstim_update stim = Option.none := by
  rw [dstim_update, prepLoop_fail (List.range stim.layer_count) stim i
    (List.mem_range.mpr hi) (fun j hj => List.mem_range.mp hj) hc hlen hb hw]

/-- Claim C10 witness: bringing layer 0 into existence with the visibility
setter alone and then calling update aborts. -/
theorem claim_C10_witness :
    ((dstim_layer_show (initState 960 400) 0 true).1.layers.length = DSTIM_MAX_LAYERS ∧
     (dstim_layer_show (initState 960 400) 0 true).1.layer_count ≤ DSTIM_MAX_LAYERS ∧
     0 < (dstim_layer_show (initState 960 400) 0 true).1.layer_count ∧
     ((dstim_layer_show (initState 960 400) 0 true).1.layers.getD 0 zeroLayer).is_blank
       = true ∧
     ((dstim_layer_show (initState 960 400) 0 true).1.layers.getD 0 zeroLayer).tex_width
       = 0) ∧
    dstim_update (dstim_layer_show (initState 960 400) 0 true).1 = Option.none :=
  ⟨⟨by decide, by decide, by decide, by decide, by decide⟩,
   claim_C10 (dstim_layer_show (initState 960 400) 0 true).1 0
     (by decide) (by decide) (by decide) (by decide) (by decide)⟩

theorem dstim_update_inv (stim stim1 : DStim) (tr1 : List DEvent)
    (h : dstim_update stim = some (stim1, tr1)) :
    ∃ evsP, prepLoop stim (List.range stim.layer_count) = some (stim1, evsP) ∧
      tr1 = DEvent.recordBegin
        :: DEvent.recordViewport 0 0 stim.width stim.height
        :: DEvent.recordDraw DPipe.background 0 SQUARE_VERTEX_COUNT
        :: (evsP
            ++ drawScreenEvents stim1 { zeroPush with model := stim.model }
                 (List.range stim1.screen_count)
            ++ [DEvent.recordViewport 0 0 stim.width stim.height,
                DEvent.recordDraw DPipe.square 0 SQUARE_VERTEX_COUNT,
                DEvent.recordEnd, DEvent.submit]) := by
  cases hp : prepLoop stim (List.range stim.layer_count) with
  | none => rw [dstim_update, hp] at h; exact absurd h (by simp)
  | some pr =>
    obtain ⟨sP, evsP⟩ := pr
    rw [dstim_update, hp] at h
    simp only [Option.some.injEq, Prod.mk.injEq] at h
    obtain ⟨hs, htr⟩ := h
    subst hs
    refine ⟨evsP, ?_, htr.symm⟩
    rfl

theorem update_flags_clear (stim stim1 : DStim) (evsP : List DEvent)
    (hlen : stim.layers.length = DSTIM_MAX_LAYERS)
    (hc : stim.layer_count ≤ DSTIM_MAX_LAYERS)
    (hp : prepLoop stim (List.range stim.layer_count) = some (stim1, evsP)) :
    ∀ j ∈ List.range stim1.layer_count,
      (stim1.layers.getD j zeroLayer).is_blank = false ∧
      (stim1.layers.getD j zeroLayer).is_texture_dirty = false := by
  have hrange : ∀ j ∈ List.range stim.layer_count, j < stim.layer_count :=
    fun j hj => List.mem_range.mp hj
  obtain ⟨⟨e1, e2, e3, e4, e5, e6, e7, e8⟩, houts, hins, hfilt⟩ :=
    prepLoop_spec _ _ _ _ hp hrange hc hlen
  intro j hj
  have hj' : j < stim.layer_count := e7 ▸ List.mem_range.mp hj
  rw [hins j (List.mem_range.mpr hj')]
  exact ⟨rfl, rfl⟩

/-- Claim C4: for a layer that exists (i < layer_count), a successful
dstim_update leaves is_blank = false; its trace contains the pipeline
creation of that layer exactly once when the layer was blank and never
otherwise (the count is independent of is_visible, since the statement
quantifies over arbitrary states: preparation runs regardless of
visibility); a second update never prepares again; and the visibility
setter cannot resurrect is_blank. Together: is_blank goes true to false
exactly once, on the first update after the layer exists. -/
theorem claim_C4 (stim stim1 : DStim) (tr1 : List DEvent) (i : Nat)
    (hlen : stim.layers.length = DSTIM_MAX_LAYERS)
    (hc : stim.layer_count ≤ DSTIM_MAX_LAYERS)
    (hi : i < stim.layer_count)
    (h1 : dstim_update stim = some (stim1, tr1)) :
    (stim1.layers.getD i zeroLayer).is_blank = false ∧
    tr1.countP (DEvent.isPrepareOf i) =
      (if (stim.layers.getD i zeroLayer).is_blank = true then 1 else 0) ∧
    (∀ stim2 tr2, dstim_update stim1 = some (stim2, tr2) →
      stim2 = stim1 ∧ tr2.countP (DEvent.isPrepareOf i) = 0) ∧
    (∀ j v, ((dstim_layer_show stim1 j v).1.layers.getD i zeroLayer).is_blank = false) := by
  obtain ⟨evsP, hp, htr⟩ := dstim_update_inv stim stim1 tr1 h1
  have hrange : ∀ j ∈ List.range stim.layer_count, j < stim.layer_count :=
    fun j hj => List.mem_range.mp hj
  obtain ⟨⟨e1, e2, e3, e4, e5, e6, e7, e8⟩, houts, hins, hfilt⟩ :=
    prepLoop_spec _ _ _ _ hp hrange hc hlen
  have cnt := prepLoop_count _ _ _ _ hp hrange hc hlen i
  have hblank1 : (stim1.layers.getD i zeroLayer).is_blank = false := by
    rw [hins i (List.mem_range.mpr hi)]
  refine ⟨hblank1, ?_, ?_, ?_⟩
  · subst htr
    rw [List.countP_cons, List.countP_cons, List.countP_cons, List.countP_append,
      List.countP_append, cnt.1, drawScreenEvents_count_prepare]
    simp only [List.mem_range.mpr hi, true_and]
    simp [DEvent.isPrepareOf, List.countP_cons]
  · intro stim2 tr2 h2
    have hp2 : prepLoop stim1 (List.range stim1.layer_count) = some (stim1, []) :=
      prepLoop_clean _ _ (update_flags_clear stim stim1 evsP hlen hc hp)
    rw [dstim_update, hp2] at h2
    simp only [Option.some.injEq, Prod.mk.injEq] at h2
    obtain ⟨h2a, h2b⟩ := h2
    refine ⟨h2a.symm, ?_⟩
    rw [← h2b]
    rw [List.countP_cons, List.countP_cons, List.countP_cons, List.countP_append,
      List.countP_append, drawScreenEvents_count_prepare]
    simp [DEvent.isPrepareOf, List.countP_cons]
  · intro j v
    by_cases h16 : DSTIM_MAX_LAYERS ≤ j
    · simp only [dstim_layer_show, h16, if_true, ite_true]
      exact hblank1
    · simp only [dstim_layer_show, h16, if_false, ite_false]
      by_cases hji : j = i
      · subst hji
        have hjlen : j < stim1.layers.length := by
          rw [e8, hlen]; omega
        rw [list_getD_set_self _ _ _ _ hjlen]
        exact hblank1
      · rw [list_getD_set_ne _ _ _ hji]
        exact hblank1

/-- Claim C6: after one successful dstim_update, calling it again performs
no preparation and no texture upload (the second call leaves the state
unchanged, so no is_blank or is_texture_dirty transition happens, and its
trace contains no non-record request at all), yet it emits exactly the
same recorded viewport/draw/push-constant command sequence as the first
call. -/
theorem claim_C6 (stim stim1 : DStim) (tr1 : List DEvent)
    (hlen : stim.layers.length = DSTIM_MAX_LAYERS)
    (hc : stim.layer_count ≤ DSTIM_MAX_LAYERS)
    (h1 : dstim_update stim = some (stim1, tr1)) :
    dstim_update stim1 = some (stim1, updateCleanTrace stim1) ∧
    (updateCleanTrace stim1).filter (fun e => e.isRecordCmd) =
      tr1.filter (fun e => e.isRecordCmd) ∧
    (updateCleanTrace stim1).filter (fun e => !e.isRecordCmd) = [] := by
  obtain ⟨evsP, hp, htr⟩ := dstim_update_inv stim stim1 tr1 h1
  have hrange : ∀ j ∈ List.range stim.layer_count, j < stim.layer_count :=
    fun j hj => List.mem_range.mp hj
  obtain ⟨⟨e1, e2, e3, e4, e5, e6, e7, e8⟩, houts, hins, hfilt⟩ :=
    prepLoop_spec _ _ _ _ hp hrange hc hlen
  have hp2 : prepLoop stim1 (List.range stim1.layer_count) = some (stim1, []) :=
    prepLoop_clean _ _ (update_flags_clear stim stim1 evsP hlen hc hp)
  refine ⟨?_, ?_, ?_⟩
  · rw [dstim_update, hp2]
    rfl
  · subst htr
    have r1 : DEvent.recordBegin.isRecordCmd = true := rfl
    have r2 : ∀ a b c d, (DEvent.recordViewport a b c d).isRecordCmd = true :=
      fun _ _ _ _ => rfl
    have r3 : ∀ p a b, (DEvent.recordDraw p a b).isRecordCmd = true := fun _ _ _ => rfl
    have r4 : DEvent.recordEnd.isRecordCmd = true := rfl
    have r5 : DEvent.submit.isRecordCmd = true := rfl
    rw [updateCleanTrace, e1, e2, e3]
    simp only [List.filter_cons, List.filter_append, hfilt,
      drawScreenEvents_filter_record, r1, r2, r3, r4, r5, eq_self_iff_true,
      if_true, ite_true, List.nil_append]
  · have r1 : DEvent.recordBegin.isRecordCmd = true := rfl
    have r2 : ∀ a b c d, (DEvent.recordViewport a b c d).isRecordCmd = true :=
      fun _ _ _ _ => rfl
    have r3 : ∀ p a b, (DEvent.recordDraw p a b).isRecordCmd = true := fun _ _ _ => rfl
    have r4 : DEvent.recordEnd.isRecordCmd = true := rfl
    have r5 : DEvent.submit.isRecordCmd = true := rfl
    have hfe : (false = true) = False := by simp
    rw [updateCleanTrace]
    simp only [List.filter_cons, List.filter_append,
      drawScreenEvents_filter_nonrecord, r1, r2, r3, r4, r5, Bool.not_true,
      hfe, if_false, ite_false, List.nil_append, List.append_nil, List.filter_nil]

/-- Claim C5: a valid texture call replaces the owned pixel buffer with a
byte-identical copy of the caller input and sets is_texture_dirty; the
next successful dstim_update uploads exactly that buffer exactly once and
clears the flag, and a further update uploads nothing for that layer. -/
theorem claim_C5 (stim stim1 : DStim) (err : Bool) (i fmt w h n : Nat) (bytes : List Nat)
    (hlen : stim.layers.length = DSTIM_MAX_LAYERS)
    (hc : stim.layer_count ≤ DSTIM_MAX_LAYERS)
    (h16 : i < DSTIM_MAX_LAYERS)
    (hn : n ≠ 0) (hw : w ≠ 0) (hh : h ≠ 0)
    (hset : dstim_layer_texture stim i fmt w h n (some bytes) = some (stim1, err)) :
    err = false ∧
    (stim1.layers.getD i zeroLayer).rgba = some bytes ∧
    (stim1.layers.getD i zeroLayer).is_texture_dirty = true ∧
    (∀ stim2 tr2, dstim_update stim1 = some (stim2, tr2) →
      (stim2.layers.getD i zeroLayer).is_texture_dirty = false ∧
      tr2.countP (DEvent.isUploadOf i) = 1 ∧
      DEvent.uploadTex i bytes ∈ tr2 ∧
      (∀ stim3 tr3, dstim_update stim2 = some (stim3, tr3) →
        tr3.countP (DEvent.isUploadOf i) = 0)) := by
  have h16' : ¬ DSTIM_MAX_LAYERS ≤ i := by omega
  have hilen : i < stim.layers.length := by omega
  simp only [dstim_layer_texture, hn, hw, hh, Option.some_ne_none, false_or, or_false,
    if_false, ite_false, h16', Option.some.injEq, Prod.mk.injEq] at hset
  obtain ⟨hs1, herr⟩ := hset
  have hgd : stim1.layers.getD i zeroLayer =
      { stim.layers.getD i zeroLayer with
          is_texture_dirty := true, format := fmt, tex_width := w, tex_height := h,
          tex_nbytes := n, rgba := _cpy n (some bytes) } := by
    rw [← hs1]
    exact list_getD_set_self _ _ _ _ hilen
  have hlen1 : stim1.layers.length = DSTIM_MAX_LAYERS := by
    rw [← hs1]
    simpa using hlen
  have hc1 : stim1.layer_count ≤ DSTIM_MAX_LAYERS := by
    rw [← hs1]
    exact max_le hc h16
  have hi1 : i < stim1.layer_count := by
    rw [← hs1]
    exact lt_of_lt_of_le (Nat.lt_succ_self i) (le_max_right _ _)
  refine ⟨herr.symm, by rw [hgd]; rfl, by rw [hgd], ?_⟩
  intro stim2 tr2 h2
  obtain ⟨evsP2, hp2, htr2⟩ := dstim_update_inv stim1 stim2 tr2 h2
  have hrange2 : ∀ j ∈ List.range stim1.layer_count, j < stim1.layer_count :=
    fun j hj => List.mem_range.mp hj
  obtain ⟨⟨f1, f2, f3, f4, f5, f6, f7, f8⟩, houts2, hins2, hfilt2⟩ :=
    prepLoop_spec _ _ _ _ hp2 hrange2 hc1 hlen1
  have cnt2 := prepLoop_count _ _ _ _ hp2 hrange2 hc1 hlen1 i
  have hmem : i ∈ List.range stim1.layer_count := List.mem_range.mpr hi1
  have hdirty : (stim1.layers.getD i zeroLayer).is_texture_dirty = true := by rw [hgd]
  refine ⟨?_, ?_, ?_, ?_⟩
  · rw [hins2 i hmem]
  · subst htr2
    rw [List.countP_cons, List.countP_cons, List.countP_cons, List.countP_append,
      List.countP_append, cnt2.2.1, drawScreenEvents_count_upload]
    simp only [hmem, hdirty, true_and, eq_self_iff_true, if_true, ite_true]
    simp [DEvent.isUploadOf, List.countP_cons]
  · have hup : DEvent.uploadTex i ((stim1.layers.getD i zeroLayer).rgba.getD []) ∈ evsP2 :=
      cnt2.2.2 hmem hdirty
    rw [hgd] at hup
    subst htr2
    exact List.mem_cons_of_mem _ (List.mem_cons_of_mem _ (List.mem_cons_of_mem _
      (List.mem_append_left _ (List.mem_append_left _ hup))))
  · intro stim3 tr3 h3
    have hp3 : prepLoop stim2 (List.range stim2.layer_count) = some (stim2, []) :=
      prepLoop_clean _ _ (update_flags_clear stim1 stim2 evsP2 hlen1 hc1 hp2)
    rw [dstim_update, hp3] at h3
    simp only [Option.some.injEq, Prod.mk.injEq] at h3
    obtain ⟨h3a, h3b⟩ := h3
    rw [← h3b]
    rw [List.countP_cons, List.countP_cons, List.countP_cons, List.countP_append,
      List.countP_append, drawScreenEvents_count_upload]
    simp [DEvent.isUploadOf, List.countP_cons]

/-- Claim C1: for every state with 2 configured screens and 2 visible,
already-prepared layers (is_blank and is_texture_dirty both false),
dstim_update records exactly the begin-recording bracket followed by:
full-window viewport, background draw, then for screen 0 its viewport and
the push-constant+indexed-draw of layer 0 then layer 1, then the same for
screen 1, then full-window viewport, square draw, end, submit - screens
are the outer loop, layers the inner loop, and no draws interleave across
screens. The state is returned unchanged. -/
theorem claim_C1 (stim : DStim)
    (hs : stim.screen_count = 2) (hl : stim.layer_count = 2)
    (h0v : (stim.layers.getD 0 zeroLayer).is_visible = true)
    (h0b : (stim.layers.getD 0 zeroLayer).is_blank = false)
    (h0t : (stim.layers.getD 0 zeroLayer).is_texture_dirty = false)
    (h1v : (stim.layers.getD 1 zeroLayer).is_visible = true)
    (h1b : (stim.layers.getD 1 zeroLayer).is_blank = false)
    (h1t : (stim.layers.getD 1 zeroLayer).is_texture_dirty = false) :
    dstim_update stim = some (stim, c1_trace stim) := by
  have hr2 : List.range 2 = [0, 1] := rfl
  have hclean : prepLoop stim (List.range stim.layer_count) = some (stim, []) := by
    refine prepLoop_clean _ _ ?_
    intro j hj
    rw [hl, hr2] at hj
    rcases List.mem_cons.mp hj with h | h
    · subst h; exact ⟨h0b, h0t⟩
    · rcases List.mem_cons.mp h with h | h
      · subst h; exact ⟨h1b, h1t⟩
      · exact absurd h (List.not_mem_nil _)
  rw [dstim_update, hclean]
  rw [c1_trace]
  simp only [hs, hl, hr2, drawScreenEvents, drawLayerEvents, h0v, h1v, if_true,
    ite_true, List.nil_append, List.append_nil]
  rfl

/-- Claim C1 witness: the prepared two-screen two-layer state. -/
theorem claim_C1_witness :
    (witnessPrepared.screen_count = 2 ∧ witnessPrepared.layer_count = 2 ∧
     (witnessPrepared.layers.getD 0 zeroLayer).is_visible = true ∧
     (witnessPrepared.layers.getD 0 zeroLayer).is_blank = false ∧
     (witnessPrepared.layers.getD 0 zeroLayer).is_texture_dirty = false ∧
     (witnessPrepared.layers.getD 1 zeroLayer).is_visible = true ∧
     (witnessPrepared.layers.getD 1 zeroLayer).is_blank = false ∧
     (witnessPrepared.layers.getD 1 zeroLayer).is_texture_dirty = false) ∧
    dstim_update witnessPrepared = some (witnessPrepared, c1_trace witnessPrepared) :=
  ⟨⟨rfl, rfl, rfl, rfl, rfl, rfl, rfl, rfl⟩,
   claim_C1 witnessPrepared rfl rfl rfl rfl rfl rfl rfl rfl⟩

/-- Claim C4 witness at layer 0 of the two-layer state. -/
theorem claim_C4_witness :
    (witnessBase.layers.length = DSTIM_MAX_LAYERS ∧
     witnessBase.layer_count ≤ DSTIM_MAX_LAYERS ∧
     0 < witnessBase.layer_count ∧
     dstim_update witnessBase = some (witnessPrepared, witnessTrace)) ∧
    ((witnessPrepared.layers.getD 0 zeroLayer).is_blank = false ∧
     witnessTrace.countP (DEvent.isPrepareOf 0) =
       (if (witnessBase.layers.getD 0 zeroLayer).is_blank = true then 1 else 0) ∧
     (∀ stim2 tr2, dstim_update witnessPrepared = some (stim2, tr2) →
       stim2 = witnessPrepared ∧ tr2.countP (DEvent.isPrepareOf 0) = 0) ∧
     (∀ j v, ((dstim_layer_show witnessPrepared j v).1.layers.getD 0
       zeroLayer).is_blank = false)) :=
  ⟨⟨rfl, by decide, by decide, rfl⟩,
   claim_C4 witnessBase witnessPrepared witnessTrace 0 rfl (by decide) (by decide) rfl⟩

/-- Claim C6 witness on the same state. -/
theorem claim_C6_witness :
    (witnessBase.layers.length = DSTIM_MAX_LAYERS ∧
     witnessBase.layer_count ≤ DSTIM_MAX_LAYERS ∧
     dstim_update witnessBase = some (witnessPrepared, witnessTrace)) ∧
    (dstim_update witnessPrepared = some (witnessPrepared, updateCleanTrace witnessPrepared) ∧
     (updateCleanTrace witnessPrepared).filter (fun e => e.isRecordCmd) =
       witnessTrace.filter (fun e => e.isRecordCmd) ∧
     (updateCleanTrace witnessPrepared).filter (fun e => !e.isRecordCmd) = []) :=
  ⟨⟨rfl, by decide, rfl⟩,
   claim_C6 witnessBase witnessPrepared witnessTrace rfl (by decide) rfl⟩

/-- Claim C5 witness: a valid texture call at layer 0 of the fresh scene. -/
theorem claim_C5_witness :
    ((initState 960 400).layers.length = DSTIM_MAX_LAYERS ∧
     (initState 960 400).layer_count ≤ DSTIM_MAX_LAYERS ∧
     0 < DSTIM_MAX_LAYERS ∧ (8 : Nat) ≠ 0 ∧ (2 : Nat) ≠ 0 ∧ (1 : Nat) ≠ 0 ∧
     dstim_layer_texture (initState 960 400) 0 0 2 1 8
       (some [1, 2, 3, 4, 5, 6, 7, 8]) = some (c5stim1, false)) ∧
    ((c5stim1.layers.getD 0 zeroLayer).rgba = some [1, 2, 3, 4, 5, 6, 7, 8] ∧
     (c5stim1.layers.getD 0 zeroLayer).is_texture_dirty = true ∧
     (∀ stim2 tr2, dstim_update c5stim1 = some (stim2, tr2) →
       (stim2.layers.getD 0 zeroLayer).is_texture_dirty = false ∧
       tr2.countP (DEvent.isUploadOf 0) = 1 ∧
       DEvent.uploadTex 0 [1, 2, 3, 4, 5, 6, 7, 8] ∈ tr2 ∧
       (∀ stim3 tr3, dstim_update stim2 = some (stim3, tr3) →
         tr3.countP (DEvent.isUploadOf 0) = 0))) :=
  ⟨⟨rfl, by decide, by decide, by decide, by decide, by decide, rfl⟩,
   ((claim_C5 (initState 960 400) c5stim1 false 0 0 2 1 8 [1, 2, 3, 4, 5, 6, 7, 8]
     rfl (by decide) (by decide) (by decide) (by decide) (by decide) rfl).2)⟩
